import Mathlib

/-!
# Database access layer of the maintenance application (`src/lib/database.js`)

A shallow embedding of the module `src/lib/database.js`: the location guard
`verificarLocalizacaoBanco`, the lazily created pool (`createPool`), the three
statement entry points (`query`, `queryDirect`, `execute`), `getConnection`
and the sequential number generator `getNextNumber`.

Modelling conventions.

* The JavaScript process is a value `Env` (what `typeof window`, `process.env`,
  `process.cwd()`, the clock, `path.resolve` and `fs.existsSync` answer) and a
  mutable `World`: the module variable `pool`, the store behind the pool, the
  calls dispatched to the pool and the console output.
* The MySQL pool is an external collaborator.  It is a parameter
  `PoolBehaviour σ`: a function from the store state and the call it receives
  to the outcome of the returned promise and the next store state.
* An `async` function is a function `World σ → Except JSError α × World σ`; a
  rejected promise and a synchronous `throw` are both `Except.error`.
* The counters table is a map to unbounded natural numbers.  A number inside
  a row or a parameter array is written `Scalar.num n` for an integer `n` and
  stands for the JavaScript Number nearest to `n` (the value the driver
  builds from the stored integer): up to `2 ^ 53 - 1` it is `n` itself and
  `toString()` is the decimal text of `n`; above, `n` is rounded to a 53-bit
  significand and printed by the rule of `Number.prototype.toString`
  (shortest digits that read back as the same Number, exponent form from
  `1e21`), see `toNumber` and `numberText`.  The calendar year of
  `getFullYear()` has at most six digits and is printed in decimal.
* Strings are `String`; their length is counted in UTF-16 code units where
  the runtime does so (`jsLength`).
* The statements of `getNextNumber` are told apart by their SQL text; the
  counters store executes each of them as one atomic step.
* Part I holds the definitions, Part II the lemmas and the claims `C1`, `C2`,
  ... in order, each claim being one theorem named after its identifier.
-/

namespace Manu

/-! # Part I: the embedding (definitions) -/

/-! ## JavaScript values -/

/-- A scalar JavaScript value, as found inside a parameter array or a row.
`num n` is the Number nearest to the integer `n`: `n` itself up to
`2 ^ 53 - 1` in absolute value, the rounded value above (see `toNumber`). -/
inductive Scalar where
  | null
  | bool (b : Bool)
  | num (n : Int)
  | str (s : String)
  deriving DecidableEq, Repr

/-- A JavaScript value as it can be passed for the `params` argument. -/
inductive JSValue where
  | undefined
  | null
  | bool (b : Bool)
  | num (n : Int)
  | str (s : String)
  | obj (fields : List (String × Scalar))
  | array (items : List Scalar)
  deriving DecidableEq, Repr

/-- The test `Array.isArray(v)`. -/
def JSValue.isArray : JSValue → Bool
  | .array _ => true
  | _ => false

/-- A thrown JavaScript error object: constructor name, message and the own
properties attached to it. -/
structure JSError where
  name : String
  message : String
  props : List (String × JSValue)
  deriving DecidableEq, Repr

/-- The object `new Error(message)`. -/
def mkError (message : String) : JSError :=
  { name := "Error", message := message, props := [] }

/-- The `TypeError` the engine raises on a property access or method call on
`undefined` or `null`. -/
def typeError (message : String) : JSError :=
  { name := "TypeError", message := message, props := [] }

deriving instance DecidableEq for Except

/-! ## String helpers of the JavaScript runtime -/

/-- The number of UTF-16 code units of a character: two for a character
outside the Basic Multilingual Plane, one otherwise. -/
def charUnits (ch : Char) : Nat :=
  if ch.toNat < 65536 then 1 else 2

/-- The property `length` of a string: its number of UTF-16 code units. -/
def jsLength (s : String) : Nat :=
  (s.data.map charUnits).sum

/-- The longest run of leading characters that fits into `n` UTF-16 code
units.  (When the cut falls inside a surrogate pair the runtime keeps the
first half of the pair, which a `String` cannot hold; the pair is left out
here.  A filler of Basic Multilingual Plane characters, as the `"0"` the
module passes, is cut exactly.) -/
def takeUnits : Nat → List Char → List Char
  | _, [] => []
  | n, ch :: rest => if charUnits ch ≤ n then ch :: takeUnits (n - charUnits ch) rest else []

/-- The method `String.prototype.padStart(targetLength, padString)`: when the
string has fewer than `targetLength` code units, it is prefixed by `padString`
repeated and cut to the missing number of code units; otherwise, and for an
empty `padString`, it is returned as it is. -/
def padStart (s : String) (targetLength : Nat) (padString : String) : String :=
  if targetLength ≤ jsLength s then s
  else if jsLength padString = 0 then s
  else
    let fillLen := targetLength - jsLength s
    String.mk (takeUnits fillLen ((List.replicate fillLen padString.data).flatten)) ++ s

/-- The method `String.prototype.startsWith(searchString)`. -/
def startsWith (s searchString : String) : Bool :=
  searchString.data.isPrefixOf s.data

/-! ## JavaScript Numbers holding integers -/

/-- The constant `Number.MAX_SAFE_INTEGER`, `2 ^ 53 - 1`: up to it every
integer is a Number of its own. -/
def maxSafeInteger : Nat := 9007199254740991

/-- How many low bits of `n` do not fit into a significand of 53 bits. -/
def excessBits : Nat → Nat → Nat
  | 0, _ => 0
  | fuel + 1, n => if n < 2 ^ 53 then 0 else excessBits fuel (n / 2) + 1

/-- The finite Number nearest to the non-negative integer `n`, for `n` below
`2 ^ 1024`: `n` rounded to a significand of 53 bits, a tie going to the even
significand. -/
def toNumber (n : Nat) : Nat :=
  let e := excessBits 1024 n
  let q := n / 2 ^ e
  let r := n % 2 ^ e
  if 2 ^ e < 2 * r ∨ (2 * r = 2 ^ e ∧ q % 2 = 1) then (q + 1) * 2 ^ e else q * 2 ^ e

/-- Among the multiples of `p` next to the Number `x`, one that reads back as
`x`, the closer one if both do, the one with the even multiplier on a tie. -/
def shortestAt (x p : Nat) : Option Nat :=
  let lo := x / p * p
  let hi := lo + p
  if toNumber lo = x then
    if toNumber hi = x then
      if x - lo < hi - x then some lo
      else if hi - x < x - lo then some hi
      else if (lo / p) % 2 = 0 then some lo else some hi
    else some lo
  else if toNumber hi = x then some hi
  else none

/-- The integer with the fewest significant digits that reads back as the
Number `x`: multiples of `10 ^ j`, `10 ^ (j - 1)`, ... are tried in turn. -/
def shortestFrom (x : Nat) : Nat → Nat
  | 0 => x
  | j + 1 =>
    match shortestAt x (10 ^ (j + 1)) with
    | some y => y
    | none => shortestFrom x j

/-- The digits without the zeros that end them. -/
def dropTrailingZeros (ds : List Char) : List Char :=
  (ds.reverse.dropWhile (fun ch => ch = '0')).reverse

/-- The exponent form `d.ddde+N` of a positive integer. -/
def exponentText (y : Nat) : String :=
  let ds := (Nat.repr y).data
  match dropTrailingZeros ds with
  | [] => "0"
  | [d] => String.mk [d] ++ "e+" ++ Nat.repr (ds.length - 1)
  | d :: rest => String.mk (d :: '.' :: rest) ++ "e+" ++ Nat.repr (ds.length - 1)

/-- The text `Number.prototype.toString()` gives for the Number nearest to the
non-negative integer `n`: the decimal digits of `n` up to
`Number.MAX_SAFE_INTEGER`; above, the shortest digits that read back as the
same Number, followed by zeros below `1e21` and in exponent form from there;
`Infinity` when `n` rounds beyond the largest finite Number. -/
def numberText (n : Nat) : String :=
  if n ≤ maxSafeInteger then Nat.repr n
  else if (2 ^ 256) ^ 4 - (2 ^ 194) ^ 5 ≤ n then "Infinity"
  else
    let x := toNumber n
    let y := shortestFrom x ((Nat.repr x).length - 1)
    if y < 10 ^ 21 then Nat.repr y else exponentText y

/-- The method `toString()` of a value read from a row: a `TypeError` on
`null`, the text of a Number (`numberText`, with a minus sign for a negative
one), the text of a string. -/
def Scalar.jsToString : Scalar → Except JSError String
  | .null => .error (typeError "Cannot read properties of null (reading \x27toString\x27)")
  | .bool b => .ok (if b then "true" else "false")
  | .num (.ofNat m) => .ok (numberText m)
  | .num (.negSucc m) => .ok ("-" ++ numberText (m + 1))
  | .str s => .ok s

/-! ## The number format (`getNextNumber`, the `switch` on the entity type) -/

/-- The `switch (entityType)` of `getNextNumber`, applied to the text
`counter.toString()` and the current year. -/
def formatSwitch (entityType : String) (counterText : String) (currentYear : Nat) : String :=
  if entityType = "service_orders" then
    "OS-" ++ padStart counterText 3 "0" ++ "-" ++ toString currentYear
  else if entityType = "equipment" then
    "EQ-" ++ padStart counterText 2 "0" ++ "/" ++ toString currentYear
  else if entityType = "companies" then
    "EMP-" ++ padStart counterText 2 "0" ++ "/" ++ toString currentYear
  else
    padStart counterText 2 "0" ++ "/" ++ toString currentYear

/-! ## The process environment and the world the module acts on -/

/-- What the process answers to the module: whether a global `window` exists
(the test on `typeof window`), the environment variables it reads, the
working directory, the year of `new Date().getFullYear()` (an integer of at
most six digits, printed in decimal), and the library functions
`path.resolve` and `fs.existsSync`. -/
structure Env where
  windowDefined : Bool
  DB_DATA_PATH : Option String
  DB_HOST : Option String
  DB_USER : Option String
  DB_PASSWORD : Option String
  DB_NAME : Option String
  cwd : String
  currentYear : Nat
  resolve : String → String
  existsSync : String → Bool

/-- The expression `v || d` for an environment variable `v`: `undefined` and the
empty string are falsy. -/
def orDefault (v : Option String) (d : String) : String :=
  match v with
  | none => d
  | some s => if s = "" then d else s

/-- The object `dbConfig`. -/
structure DbConfig where
  host : String
  user : String
  password : String
  database : String
  charset : String
  timezone : String
  connectionLimit : Nat
  acquireTimeout : Nat
  timeout : Nat
  reconnect : Bool
  idleTimeout : Nat
  maxIdle : Nat
  waitForConnections : Bool
  queueLimit : Nat
  deriving DecidableEq, Repr

/-- The constant `dbConfig` of the module. -/
def dbConfig (env : Env) : DbConfig :=
  { host := orDefault env.DB_HOST "localhost"
    user := orDefault env.DB_USER "root"
    password := orDefault env.DB_PASSWORD ""
    database := orDefault env.DB_NAME "hospital_maintenance"
    charset := "utf8mb4"
    timezone := "+00:00"
    connectionLimit := 5
    acquireTimeout := 10000
    timeout := 10000
    reconnect := true
    idleTimeout := 30000
    maxIdle := 2
    waitForConnections := true
    queueLimit := 0 }

/-- A call the module dispatches to the pool object: `pool.query(sql)` (no
values), `pool.query(sql, values)`, `pool.execute(sql, params)` and
`pool.getConnection()`. -/
inductive PoolCall where
  | query (sql : String) (values : Option (List Scalar))
  | execute (sql : String) (params : JSValue)
  | getConnection
  deriving DecidableEq, Repr

/-- A row of a result set: column name and value. -/
abbrev Row := List (String × Scalar)

/-- What a pool call resolves to (the first component of the pair the driver
returns): the rows of a `SELECT`, the header of a data-changing statement, or
a connection. -/
inductive PoolResponse where
  | rows (rs : List Row)
  | header (affectedRows : Nat)
  | connection (id : Nat)
  deriving DecidableEq, Repr

/-- The pool as an external collaborator: given the state of the store and a
call, the outcome of the call and the next state of the store. -/
structure PoolBehaviour (σ : Type) where
  run : σ → PoolCall → Except JSError PoolResponse × σ

/-- Severity of a console line: `console.log`, `console.warn`, `console.error`. -/
inductive LogLevel where
  | log
  | warn
  | error
  deriving DecidableEq, Repr

/-- The value printed after the label of a console line. -/
inductive LogArg where
  | none
  | sql (s : String)
  | params (v : JSValue)
  | result (r : PoolResponse)
  | error (e : JSError)
  deriving DecidableEq, Repr

/-- One console line. -/
structure LogEntry where
  level : LogLevel
  label : String
  arg : LogArg
  deriving DecidableEq, Repr

/-- The mutable world: the module variable `pool` (`none` is `undefined`, a
pool is named by its creation index), the arguments of every
`mysql.createPool` invocation so far, the store behind the pool, the calls
dispatched to the pool and the console output (oldest first). -/
structure World (σ : Type) where
  pool : Option Nat
  created : List DbConfig
  store : σ
  dispatched : List PoolCall
  log : List LogEntry

/-- Appends console lines. -/
def World.say {σ : Type} (w : World σ) (entries : List LogEntry) : World σ :=
  { w with log := w.log ++ entries }

/-- Records a call handed to the pool and the store state it leaves. -/
def World.afterCall {σ : Type} (w : World σ) (call : PoolCall) (s : σ) : World σ :=
  { w with store := s, dispatched := w.dispatched ++ [call] }

/-- The default parameter `params = []`: it applies when the argument is
`undefined` (absent), and only then. -/
def defaultParams : JSValue → JSValue
  | .undefined => .array []
  | v => v

/-- The expression `Array.isArray(params) ? params : []`. -/
def safeParamsOf (params : JSValue) : List Scalar :=
  match params with
  | .array items => items
  | _ => []

/-! ## The location guard and the evaluation of the module -/

/-- The test `!dbDataPath`: true for `undefined` and for the empty string. -/
def isFalsy : Option String → Bool
  | none => true
  | some s => s = ""

/-- The function `verificarLocalizacaoBanco`: its outcome and the console
lines it writes. -/
def verificarLocalizacaoBanco (env : Env) : Except JSError Unit × List LogEntry :=
  if env.windowDefined then (.ok (), [])
  else
    let dbDataPath := env.DB_DATA_PATH
    let currentDir := env.cwd
    if isFalsy dbDataPath then
      (.error (mkError "❌ ERRO CRÍTICO: DB_DATA_PATH não configurado! O banco DEVE estar na pasta externa \"banco de dados\""), [])
    else
      let resolvedPath := env.resolve (dbDataPath.getD "")
      let projectPath := env.resolve currentDir
      if startsWith resolvedPath projectPath then
        (.error (mkError ("❌ PROIBIÇÃO ABSOLUTA VIOLADA: Banco de dados não pode estar dentro da pasta \x27sis manu\x27!\nCaminho detectado: "
          ++ resolvedPath ++ "\nConfigure DB_DATA_PATH para apontar para \x27../banco de dados\x27")), [])
      else
        let warned : List LogEntry :=
          if !env.existsSync resolvedPath then
            [⟨.warn, "⚠️ AVISO: Pasta externa \x27" ++ resolvedPath ++ "\x27 não existe. Será criada automaticamente.", .none⟩]
          else []
        (.ok (), warned ++
          [⟨.log, "✅ VERIFICAÇÃO APROVADA: Banco configurado corretamente na pasta externa: " ++ resolvedPath, .none⟩])

/-- Evaluation of the module body on import: the guard runs when no `window`
exists, then `dbConfig` is built and `pool` is declared without a value.  When
the evaluation throws, the import fails and none of the exported functions
exists for a caller. -/
def loadModule {σ : Type} (env : Env) (store : σ) : Except JSError Unit × World σ :=
  let w0 : World σ := { pool := none, created := [], store := store, dispatched := [], log := [] }
  if !env.windowDefined then
    match verificarLocalizacaoBanco env with
    | (.error e, out) => (.error e, w0.say out)
    | (.ok _, out) => (.ok (), w0.say out)
  else (.ok (), w0)

/-! ## The pool and the statement entry points -/

/-- The function `createPool`: the pool is built by `mysql.createPool(dbConfig)`
when the variable `pool` holds no pool yet, and the variable is returned. -/
def createPool {σ : Type} (env : Env) (w : World σ) : Except JSError Nat × World σ :=
  if env.windowDefined then
    (.error (mkError "Database operations are not allowed on the client side"), w)
  else
    match w.pool with
    | some p => (.ok p, w)
    | none =>
      let p := w.created.length
      (.ok p, { w with pool := some p, created := w.created ++ [dbConfig env] })

/-- The function `query(sql, params = [])`. -/
def query {σ : Type} (env : Env) (pb : PoolBehaviour σ) (sql : String) (paramsArg : JSValue)
    (w : World σ) : Except JSError PoolResponse × World σ :=
  let params := defaultParams paramsArg
  if env.windowDefined then
    (.error (mkError "Database queries are not allowed on the client side"), w)
  else
    match createPool env w with
    | (.error e, w1) => (.error e, w1)
    | (.ok _, w1) =>
      let w2 := w1.say [⟨.log, "🔍 [DATABASE QUERY] SQL:", .sql sql⟩,
        ⟨.log, "🔍 [DATABASE QUERY] Parâmetros:", .params params⟩]
      let safeParams := safeParamsOf params
      let call := if safeParams.length = 0 then PoolCall.query sql none
        else PoolCall.query sql (some safeParams)
      match pb.run w2.store call with
      | (.ok results, s) =>
        (.ok results, (w2.afterCall call s).say [⟨.log, "✅ [DATABASE QUERY] Resultado:", .result results⟩])
      | (.error error, s) =>
        (.error error, (w2.afterCall call s).say [⟨.error, "❌ [DATABASE QUERY] Erro:", .error error⟩,
          ⟨.error, "❌ [DATABASE QUERY] SQL:", .sql sql⟩,
          ⟨.error, "❌ [DATABASE QUERY] Parâmetros:", .params params⟩])

/-- The function `queryDirect(sql, params = [])`. -/
def queryDirect {σ : Type} (env : Env) (pb : PoolBehaviour σ) (sql : String) (paramsArg : JSValue)
    (w : World σ) : Except JSError PoolResponse × World σ :=
  let params := defaultParams paramsArg
  if env.windowDefined then
    (.error (mkError "Database queries are not allowed on the client side"), w)
  else
    match createPool env w with
    | (.error e, w1) => (.error e, w1)
    | (.ok _, w1) =>
      let w2 := w1.say [⟨.log, "🔍 [DATABASE DIRECT] SQL:", .sql sql⟩,
        ⟨.log, "🔍 [DATABASE DIRECT] Parâmetros:", .params params⟩]
      let safeParams := safeParamsOf params
      let call := if safeParams.length = 0 then PoolCall.query sql none
        else PoolCall.query sql (some safeParams)
      match pb.run w2.store call with
      | (.ok results, s) =>
        (.ok results, (w2.afterCall call s).say [⟨.log, "✅ [DATABASE DIRECT] Resultado:", .result results⟩])
      | (.error error, s) =>
        (.error error, (w2.afterCall call s).say [⟨.error, "❌ [DATABASE DIRECT] Erro:", .error error⟩,
          ⟨.error, "❌ [DATABASE DIRECT] SQL:", .sql sql⟩,
          ⟨.error, "❌ [DATABASE DIRECT] Parâmetros:", .params params⟩])

/-- The three console lines of the `catch` block of `execute`. -/
def executeCatchLines (error : JSError) (sql : String) (params : JSValue) : List LogEntry :=
  [⟨.error, "❌ [DATABASE] Erro na execução:", .error error⟩,
   ⟨.error, "❌ [DATABASE] SQL:", .sql sql⟩,
   ⟨.error, "❌ [DATABASE] Parâmetros:", .params params⟩]

/-- The function `execute(sql, params = [])`: `createPool()` and
`connection.execute(sql, params)` both sit inside the `try`. -/
def execute {σ : Type} (env : Env) (pb : PoolBehaviour σ) (sql : String) (paramsArg : JSValue)
    (w : World σ) : Except JSError PoolResponse × World σ :=
  let params := defaultParams paramsArg
  if env.windowDefined then
    (.error (mkError "Database operations are not allowed on the client side"), w)
  else
    let w1 := w.say [⟨.log, "🔍 [DATABASE] Executando SQL:", .sql sql⟩,
      ⟨.log, "🔍 [DATABASE] Parâmetros:", .params params⟩]
    match createPool env w1 with
    | (.error error, w2) => (.error error, w2.say (executeCatchLines error sql params))
    | (.ok _, w2) =>
      let call := PoolCall.execute sql params
      match pb.run w2.store call with
      | (.ok result, s) =>
        (.ok result, (w2.afterCall call s).say [⟨.log, "✅ [DATABASE] Resultado:", .result result⟩])
      | (.error error, s) =>
        (.error error, (w2.afterCall call s).say (executeCatchLines error sql params))

/-- The function `getConnection()`. -/
def getConnection {σ : Type} (env : Env) (pb : PoolBehaviour σ) (w : World σ) :
    Except JSError PoolResponse × World σ :=
  if env.windowDefined then
    (.error (mkError "Database operations are not allowed on the client side"), w)
  else
    match createPool env w with
    | (.error e, w1) => (.error e, w1)
    | (.ok _, w1) =>
      match pb.run w1.store PoolCall.getConnection with
      | (r, s) => (r, w1.afterCall PoolCall.getConnection s)

/-! ## The sequential number generator -/

/-- Text of the first statement of `getNextNumber` (seed the counter row). -/
def insertSql : String :=
  "INSERT INTO counters (entity_type, year, counter) VALUES (?, ?, 0) ON DUPLICATE KEY UPDATE counter = counter"

/-- Text of the second statement of `getNextNumber` (increment). -/
def updateSql : String :=
  "UPDATE counters SET counter = counter + 1 WHERE entity_type = ? AND year = ?"

/-- Text of the third statement of `getNextNumber` (read back). -/
def selectSql : String :=
  "SELECT counter FROM counters WHERE entity_type = ? AND year = ?"

/-- The parameter array `[entityType, currentYear]`. -/
def counterParams (entityType : String) (currentYear : Nat) : JSValue :=
  .array [.str entityType, .num (currentYear : Int)]

/-- The expression `result[0].counter`: a `TypeError` when `result[0]` is
`undefined` (no row, or a result that is not a row list); `none` stands for the
value `undefined` of a row without that column. -/
def firstCounter (result : PoolResponse) : Except JSError (Option Scalar) :=
  match result with
  | .rows (row :: _) => .ok (row.lookup "counter")
  | _ => .error (typeError "Cannot read properties of undefined (reading \x27counter\x27)")

/-- The call `counter.toString()` on the value of `result[0].counter`. -/
def counterText (counter : Option Scalar) : Except JSError String :=
  match counter with
  | none => .error (typeError "Cannot read properties of undefined (reading \x27toString\x27)")
  | some v => v.jsToString

/-- The last part of `getNextNumber`, from `const counter = result[0].counter`
to the `return` of the `switch`. -/
def formatResult (entityType : String) (currentYear : Nat) (result : PoolResponse) :
    Except JSError String :=
  match firstCounter result with
  | .error e => .error e
  | .ok counter =>
    match counterText counter with
    | .error e => .error e
    | .ok text => .ok (formatSwitch entityType text currentYear)

/-- The function `getNextNumber(entityType)`. -/
def getNextNumber {σ : Type} (env : Env) (pb : PoolBehaviour σ) (entityType : String)
    (w : World σ) : Except JSError String × World σ :=
  if env.windowDefined then
    (.error (mkError "Database operations are not allowed on the client side"), w)
  else
    let currentYear := env.currentYear
    match query env pb insertSql (counterParams entityType currentYear) w with
    | (.error e, w1) => (.error e, w1)
    | (.ok _, w1) =>
      match query env pb updateSql (counterParams entityType currentYear) w1 with
      | (.error e, w2) => (.error e, w2)
      | (.ok _, w2) =>
        match query env pb selectSql (counterParams entityType currentYear) w2 with
        | (.error e, w3) => (.error e, w3)
        | (.ok result, w3) => (formatResult entityType currentYear result, w3)

/-- Sequential calls of `getNextNumber(entityType)`, each awaited before the
next starts: the outcomes in call order and the final world. -/
def callNextNumber {σ : Type} (env : Env) (pb : PoolBehaviour σ) (entityType : String) :
    Nat → World σ → List (Except JSError String) × World σ
  | 0, w => ([], w)
  | n + 1, w =>
    match getNextNumber env pb entityType w with
    | (r, w1) =>
      match callNextNumber env pb entityType n w1 with
      | (rs, w2) => (r :: rs, w2)

/-! ## The counters table as a store -/

/-- The table `counters`: the counter stored for a key `(entity_type, year)`,
`none` when the table has no row for the key. -/
abbrev Counters := String × Int → Option Nat

/-- The counter stored for a key, `0` when the key is absent. -/
def Counters.value (s : Counters) (k : String × Int) : Nat :=
  (s k).getD 0

/-- The store with the row of key `k` set to `v`. -/
def Counters.set (s : Counters) (k : String × Int) (v : Nat) : Counters :=
  fun k1 => if k1 = k then some v else s k1

/-- The empty table. -/
def Counters.empty : Counters := fun _ => none

/-- The three statements of `getNextNumber` executed by the store, each as one
atomic step: the insert creates the row with `0` when the key is absent and
changes nothing otherwise, the update adds `1` to the row of the key, the
select returns the row of the key.  Every other call is refused. -/
def countersPool : PoolBehaviour Counters where
  run s call :=
    match call with
    | .query sql (some [.str e, .num y]) =>
      if sql = insertSql then
        match s (e, y) with
        | none => (.ok (.header 1), s.set (e, y) 0)
        | some _ => (.ok (.header 0), s)
      else if sql = updateSql then
        match s (e, y) with
        | none => (.ok (.header 0), s)
        | some c => (.ok (.header 1), s.set (e, y) (c + 1))
      else if sql = selectSql then
        match s (e, y) with
        | none => (.ok (.rows []), s)
        | some c => (.ok (.rows [[("counter", .num (c : Int))]]), s)
      else (.error (mkError "statement not supported by the counters store"), s)
    | _ => (.error (mkError "statement not supported by the counters store"), s)

/-- A server process (no `window`) with the given clock year. -/
def serverEnv (year : Nat) : Env :=
  { windowDefined := false
    DB_DATA_PATH := some "/srv/banco de dados"
    DB_HOST := none
    DB_USER := none
    DB_PASSWORD := none
    DB_NAME := none
    cwd := "/srv/sis manu"
    currentYear := year
    resolve := fun p => p
    existsSync := fun _ => true }

/-- A browser context (a global `window` exists). -/
def browserEnv (year : Nat) : Env :=
  { serverEnv year with windowDefined := true }

/-- The world right after a successful import, over the given store. -/
def freshWorld {σ : Type} (store : σ) : World σ :=
  { pool := none, created := [], store := store, dispatched := [], log := [] }

/-! ## The calls of one run, as the pool receives them -/

/-- The call `query` and `queryDirect` hand to the pool for given arguments. -/
def queryCall (sql : String) (paramsArg : JSValue) : PoolCall :=
  if (safeParamsOf (defaultParams paramsArg)).length = 0 then PoolCall.query sql none
  else PoolCall.query sql (some (safeParamsOf (defaultParams paramsArg)))

/-- The three pool calls one run of `getNextNumber` dispatches, in program
order. -/
def nextNumberStatements (entityType : String) (currentYear : Nat) : List PoolCall :=
  [ .query insertSql (some [.str entityType, .num (currentYear : Int)]),
    .query updateSql (some [.str entityType, .num (currentYear : Int)]),
    .query selectSql (some [.str entityType, .num (currentYear : Int)]) ]

/-- The pool executing a list of calls one after the other on the store,
stopping after the first call that fails: the outcomes of the calls it
received, and the final store. -/
def runCalls {σ : Type} (pb : PoolBehaviour σ) : σ → List PoolCall →
    List (Except JSError PoolResponse) × σ
  | s, [] => ([], s)
  | s, c :: cs =>
    match pb.run s c with
    | (.error e, s1) => ([.error e], s1)
    | (.ok r, s1) =>
      match runCalls pb s1 cs with
      | (rs, s2) => (.ok r :: rs, s2)

/-- What `getNextNumber` yields from the outcomes of its statements: the error
of the statement that failed, or the formatted read-back. -/
def numberOfOutcomes (entityType : String) (currentYear : Nat) :
    List (Except JSError PoolResponse) → Except JSError String
  | [.ok _, .ok _, .ok result] => formatResult entityType currentYear result
  | [.ok _, .ok _, .error e] => .error e
  | [.ok _, .error e] => .error e
  | [.error e] => .error e
  | _ => .error (mkError "not an outcome list of the three statements")

/-! ## Vocabulary of the format claims -/

/-- Decimal digits left-padded with the character `0` to at least `width`
characters; digits beyond the width are kept. -/
def zeroPad (width : Nat) (digits : String) : String :=
  String.mk (List.replicate (width - digits.length) '0') ++ digits

/-- The prefix the claim gives to the two-digit entity types: `EQ-` for
`equipment`, `EMP-` for `companies`, nothing for the other types. -/
def twoDigitPrefix (entityType : String) : String :=
  if entityType = "equipment" then "EQ-"
  else if entityType = "companies" then "EMP-"
  else ""

/-! ## Concurrent callers of `getNextNumber`

The process runs one thread: a call of `getNextNumber` runs until it awaits a
statement, and other calls run while it waits.  Each statement is one atomic
step of the store, so an execution of `N` concurrent calls is an interleaving
of their statements: a schedule names, step by step, the caller whose next
statement the store executes. -/

/-- Where a running call of `getNextNumber` stands: about to dispatch its
insert, its update or its select, or finished with an outcome. -/
inductive CallerState where
  | atInsert
  | atUpdate
  | atSelect
  | done (r : Except JSError String)
  deriving DecidableEq

/-- One step of a call: the code of `getNextNumber` from one `await` to the
next (the first step starts at the client-side check). -/
def callerStep {σ : Type} (env : Env) (pb : PoolBehaviour σ) (entityType : String)
    (st : CallerState) (w : World σ) : CallerState × World σ :=
  match st with
  | .atInsert =>
    if env.windowDefined then
      (.done (.error (mkError "Database operations are not allowed on the client side")), w)
    else
      match query env pb insertSql (counterParams entityType env.currentYear) w with
      | (.error e, w1) => (.done (.error e), w1)
      | (.ok _, w1) => (.atUpdate, w1)
  | .atUpdate =>
    match query env pb updateSql (counterParams entityType env.currentYear) w with
    | (.error e, w2) => (.done (.error e), w2)
    | (.ok _, w2) => (.atSelect, w2)
  | .atSelect =>
    match query env pb selectSql (counterParams entityType env.currentYear) w with
    | (.error e, w3) => (.done (.error e), w3)
    | (.ok result, w3) => (.done (formatResult entityType env.currentYear result), w3)
  | .done r => (.done r, w)

/-- The scheduler lets caller `i` take its next step. -/
def stepAt {σ : Type} (env : Env) (pb : PoolBehaviour σ) (entityType : String) (i : Nat)
    (cs : List CallerState) (w : World σ) : List CallerState × World σ :=
  match cs.get? i with
  | none => (cs, w)
  | some st => ((cs.set i (callerStep env pb entityType st w).1),
      (callerStep env pb entityType st w).2)

/-- Execution of a schedule. -/
def runSchedule {σ : Type} (env : Env) (pb : PoolBehaviour σ) (entityType : String) :
    List Nat → List CallerState → World σ → List CallerState × World σ
  | [], cs, w => (cs, w)
  | i :: rest, cs, w =>
    runSchedule env pb entityType rest (stepAt env pb entityType i cs w).1
      (stepAt env pb entityType i cs w).2

/-- The outcome of a finished call. -/
def CallerState.result? : CallerState → Option (Except JSError String)
  | .done r => some r
  | _ => none

/-- The outcomes of the finished calls, in caller order. -/
def returned (cs : List CallerState) : List (Except JSError String) :=
  cs.filterMap CallerState.result?

/-- Every call has finished. -/
def allDone (cs : List CallerState) : Bool :=
  cs.all (fun st => st.result?.isSome)

/-- The step of caller `i` respects isolation of the increment and the
read-back: when it is an increment, no other caller stands between its own
increment and its read-back. -/
def isolatedStep (i : Nat) (cs : List CallerState) : Bool :=
  !(cs.get? i == some .atUpdate) || cs.count .atSelect == 0

/-- Every step of the schedule respects isolation of the increment and the
read-back. -/
def isolated {σ : Type} (env : Env) (pb : PoolBehaviour σ) (entityType : String) :
    List Nat → List CallerState → World σ → Bool
  | [], _, _ => true
  | i :: rest, cs, w =>
    isolatedStep i cs &&
      isolated env pb entityType rest (stepAt env pb entityType i cs w).1
        (stepAt env pb entityType i cs w).2

/-! ## Reading decimal texts -/

/-- The number a list of decimal digit characters denotes. -/
def digitsValue (ds : List Char) : Nat :=
  ds.foldl (fun acc ch => 10 * acc + (ch.toNat - 48)) 0

/-! ## Formatted outcomes -/

/-- The outcome of a call that reads back the counter value `v`. -/
def okNumber (entityType : String) (year : Nat) (v : Nat) : Except JSError String :=
  .ok (formatSwitch entityType (numberText v) year)

/-! ## The invariant of isolated interleavings -/

/-- Invariant of an isolated interleaving of calls for one key on the counters
store, `c0` being the counter stored at the start: the row exists as soon as a
caller is past its insert; the stored counter is `c0` plus the number of
increments done; at most one caller stands between its increment and its
read-back; the outcomes returned so far are the formats of `c0 + 1`, ...,
one for each finished call. -/
def CallersInv (entityType : String) (year : Nat) (c0 : Nat) (cs : List CallerState)
    (w : World Counters) : Prop :=
  ((∃ st ∈ cs, st ≠ CallerState.atInsert) → w.store (entityType, (year : Int)) ≠ none)
    ∧ w.store.value (entityType, (year : Int))
      = c0 + (returned cs).length + cs.count .atSelect
    ∧ cs.count .atSelect ≤ 1
    ∧ (returned cs).Perm ((List.range' (c0 + 1) (returned cs).length).map
        (okNumber entityType year))

/-! ## Statements that fail -/

/-- A pool with injected failures.  The store carries a script with one entry
for each coming call: `some e` makes the call fail with `e` without touching
the underlying store, `none` lets the underlying pool execute it.  Once the
script is used up, every call is executed. -/
def withFaults {σ : Type} (pb : PoolBehaviour σ) : PoolBehaviour (σ × List (Option JSError)) where
  run s call :=
    match s.2 with
    | some e :: script => (.error e, (s.1, script))
    | none :: script => ((pb.run s.1 call).1, ((pb.run s.1 call).2, script))
    | [] => ((pb.run s.1 call).1, ((pb.run s.1 call).2, []))

/-- What happens to one call of `getNextNumber`: no statement fails, or its
insert, its update or its select fails with the given error. -/
inductive Fault where
  | none
  | atInsert (e : JSError)
  | atUpdate (e : JSError)
  | atSelect (e : JSError)
  deriving DecidableEq

/-- The script entries one call consumes. -/
def Fault.script : Fault → List (Option JSError)
  | .none => [Option.none, Option.none, Option.none]
  | .atInsert e => [some e]
  | .atUpdate e => [Option.none, some e]
  | .atSelect e => [Option.none, Option.none, some e]

/-- The script of a sequence of calls. -/
def planScript : List Fault → List (Option JSError)
  | [] => []
  | f :: fs => f.script ++ planScript fs

/-- The call runs through without a failing statement. -/
def Fault.succeeds : Fault → Bool
  | .none => true
  | _ => false

/-- The call fails at its read-back. -/
def Fault.atReadBack : Fault → Bool
  | .atSelect _ => true
  | _ => false

/-- The numbers returned by the successful calls, in call order. -/
def okValues (rs : List (Except JSError String)) : List String :=
  rs.filterMap (fun r => match r with
    | .ok v => some v
    | .error _ => Option.none)

/-- The error of a lost connection, used in examples. -/
def connectionLost : JSError :=
  { name := "Error", message := "Connection lost: The server closed the connection.",
    props := [("code", .str "PROTOCOL_CONNECTION_LOST")] }

/-! ## Sample pools and errors -/

/-- A pool whose every call fails with the given error. -/
def failingPool (e : JSError) : PoolBehaviour Unit where
  run s _ := (.error e, s)

/-- A pool that accepts every call and returns an empty header. -/
def acceptingPool : PoolBehaviour Unit where
  run s _ := (.ok (.header 0), s)

/-- The error of a refused connection, used in examples. -/
def connectionRefused : JSError :=
  { name := "Error", message := "connect ECONNREFUSED 127.0.0.1:3306",
    props := [("code", .str "ECONNREFUSED")] }

/-- The error is a `QueryError` carrying the SQL text and the parameters. -/
def isQueryErrorFor (err : JSError) (sql : String) (params : JSValue) : Bool :=
  err.name == "QueryError" && err.props.lookup "sql" == some (.str sql)
    && err.props.lookup "params" == some params

/-! ## Absolute paths -/

/-- An absolute, normalised path as `path.resolve` returns it: the root (`/`
on POSIX, a drive root on Windows), the separator of the platform and the
segments below the root. -/
structure AbsPath where
  root : String
  sep : String
  segments : List String
  deriving DecidableEq

/-- The segments joined by the separator. -/
def joinWith (sep : String) : List String → String
  | [] => ""
  | [a] => a
  | a :: b :: rest => a ++ sep ++ joinWith sep (b :: rest)

/-- The text of an absolute path. -/
def AbsPath.render (p : AbsPath) : String :=
  p.root ++ joinWith p.sep p.segments

/-- The path `inner` is the directory `outer` or lies inside it: same root and
separator, and the segments of `outer` begin the segments of `inner`. -/
def AbsPath.within (inner outer : AbsPath) : Bool :=
  inner.root == outer.root && inner.sep == outer.sep
    && outer.segments.isPrefixOf inner.segments

/-- A server whose data directory is configured as a sub-directory of the
working directory. -/
def nestedEnv : Env :=
  { serverEnv 2025 with DB_DATA_PATH := some "/srv/sis manu/data" }

/-- A server whose data directory is configured next to the working directory,
under a name that begins with the name of the working directory. -/
def siblingEnv : Env :=
  { serverEnv 2025 with DB_DATA_PATH := some "/srv/sis manu-dados" }

/-- A server with `DB_DATA_PATH` set to the empty string. -/
def emptyPathEnv : Env :=
  { serverEnv 2025 with DB_DATA_PATH := some "" }

/-- The error `verificarLocalizacaoBanco` raises when `DB_DATA_PATH` is not
configured. -/
def notConfiguredError : JSError :=
  mkError "❌ ERRO CRÍTICO: DB_DATA_PATH não configurado! O banco DEVE estar na pasta externa \"banco de dados\""

/-! ## Sequences of calls to the exported functions -/

/-- A call of one of the six exported functions, with its arguments. -/
inductive ModuleCall where
  | createPool
  | query (sql : String) (params : JSValue)
  | queryDirect (sql : String) (params : JSValue)
  | execute (sql : String) (params : JSValue)
  | getNextNumber (entityType : String)
  | getConnection
  deriving DecidableEq

/-- One call of an exported function: the world it leaves and, for
`createPool`, the outcome it returns (the pool object). -/
def callModule {σ : Type} (env : Env) (pb : PoolBehaviour σ) (c : ModuleCall) (w : World σ) :
    Option (Except JSError Nat) × World σ :=
  match c with
  | .createPool => (some (createPool env w).1, (createPool env w).2)
  | .query sql params => (none, (query env pb sql params w).2)
  | .queryDirect sql params => (none, (queryDirect env pb sql params w).2)
  | .execute sql params => (none, (execute env pb sql params w).2)
  | .getNextNumber entityType => (none, (getNextNumber env pb entityType w).2)
  | .getConnection => (none, (getConnection env pb w).2)

/-- A sequence of calls of exported functions, one after the other: the
outcomes of the `createPool` calls among them, in order, and the final world. -/
def callAll {σ : Type} (env : Env) (pb : PoolBehaviour σ) :
    List ModuleCall → World σ → List (Except JSError Nat) × World σ
  | [], w => ([], w)
  | c :: rest, w =>
    match (callModule env pb c w).1 with
    | some r => (r :: (callAll env pb rest (callModule env pb c w).2).1,
        (callAll env pb rest (callModule env pb c w).2).2)
    | none => callAll env pb rest (callModule env pb c w).2

/-- The variable `pool` and the list of constructed pools once a call has
asked for the pool: an existing pool is kept, a missing one is constructed. -/
def demandPool {σ : Type} (env : Env) (w : World σ) : Option Nat × List DbConfig :=
  match w.pool with
  | some p => (some p, w.created)
  | none => (some w.created.length, w.created ++ [dbConfig env])

/-! # Part II: lemmas and claims (theorems) -/

/-! ## Sample evaluations of the number format -/

example : formatSwitch "service_orders" (numberText 1) 2025 = "OS-001-2025" := by decide

example : formatSwitch "service_orders" (numberText 1000) 2025 = "OS-1000-2025" := by decide

example : formatSwitch "equipment" (numberText 7) 2025 = "EQ-07/2025" := by decide

example : formatSwitch "unknown_type" (numberText 3) 2025 = "03/2025" := by decide

example : numberText 9007199254740993 = "9007199254740992" := by rfl

example : numberText 18446744073709551616 = "18446744073709552000" := by rfl

example : numberText 1000000000000000000000 = "1e+21" := by rfl

example : numberText 1180591620717411303424 = "1.1805916207174113e+21" := by rfl

example : padStart "😀" 3 "0" = "0😀" := by decide

/-! ## Sample calls on the counters store -/

example : (getNextNumber (serverEnv 2025) countersPool "service_orders" (freshWorld Counters.empty)).1
    = .ok "OS-001-2025" := by decide

example : (callNextNumber (serverEnv 2025) countersPool "service_orders" 2 (freshWorld Counters.empty)).1
    = [.ok "OS-001-2025", .ok "OS-002-2025"] := by decide

example : (getNextNumber (serverEnv 2025) countersPool "equipment"
    (freshWorld (Counters.empty.set ("equipment", 2025) 6))).1 = .ok "EQ-07/2025" := by decide

/-! ## Basic facts about the entry points on the server -/

theorem createPool_store {σ : Type} (env : Env) (w : World σ) :
    (createPool env w).2.store = w.store ∧ (createPool env w).2.dispatched = w.dispatched
      ∧ (createPool env w).2.log = w.log := by
  unfold createPool
  split
  · simp
  · split <;> simp

theorem query_fst {σ : Type} (env : Env) (pb : PoolBehaviour σ) (sql : String) (ps : JSValue)
    (w : World σ) (h : env.windowDefined = false) :
    (query env pb sql ps w).1 = (pb.run w.store (queryCall sql ps)).1 := by
  unfold query createPool queryCall
  simp only [h, Bool.false_eq_true, if_false]
  cases hp : w.pool <;> simp only [World.say, World.afterCall] <;> split <;> simp_all

theorem query_store {σ : Type} (env : Env) (pb : PoolBehaviour σ) (sql : String) (ps : JSValue)
    (w : World σ) (h : env.windowDefined = false) :
    (query env pb sql ps w).2.store = (pb.run w.store (queryCall sql ps)).2 := by
  unfold query createPool queryCall
  simp only [h, Bool.false_eq_true, if_false]
  cases hp : w.pool <;> simp only [World.say, World.afterCall] <;> split <;> simp_all

theorem query_dispatched {σ : Type} (env : Env) (pb : PoolBehaviour σ) (sql : String)
    (ps : JSValue) (w : World σ) (h : env.windowDefined = false) :
    (query env pb sql ps w).2.dispatched = w.dispatched ++ [queryCall sql ps] := by
  unfold query createPool queryCall
  simp only [h, Bool.false_eq_true, if_false]
  cases hp : w.pool <;> simp only [World.say, World.afterCall] <;> split <;> simp_all

theorem queryCall_counterParams (sql : String) (entityType : String) (currentYear : Nat) :
    queryCall sql (counterParams entityType currentYear)
      = .query sql (some [.str entityType, .num (currentYear : Int)]) := by
  simp [queryCall, counterParams, defaultParams, safeParamsOf]

/-- On the server, the outcome, the final store and the dispatched calls of
`getNextNumber` are those of its three statements run in order and stopped at
the first failure, followed by the formatting. -/
theorem getNextNumber_server {σ : Type} (env : Env) (pb : PoolBehaviour σ) (entityType : String)
    (w : World σ) (h : env.windowDefined = false) :
    (getNextNumber env pb entityType w).1
        = numberOfOutcomes entityType env.currentYear
            (runCalls pb w.store (nextNumberStatements entityType env.currentYear)).1
      ∧ (getNextNumber env pb entityType w).2.store
        = (runCalls pb w.store (nextNumberStatements entityType env.currentYear)).2
      ∧ (getNextNumber env pb entityType w).2.dispatched
        = w.dispatched ++ (nextNumberStatements entityType env.currentYear).take
            (runCalls pb w.store (nextNumberStatements entityType env.currentYear)).1.length := by
  unfold getNextNumber
  simp only [h, Bool.false_eq_true, if_false]
  have q1f := query_fst env pb insertSql (counterParams entityType env.currentYear) w h
  have q1s := query_store env pb insertSql (counterParams entityType env.currentYear) w h
  have q1d := query_dispatched env pb insertSql (counterParams entityType env.currentYear) w h
  rcases hq1 : query env pb insertSql (counterParams entityType env.currentYear) w with ⟨r1, w1⟩
  rw [hq1] at q1f q1s q1d
  simp only [queryCall_counterParams] at q1f q1s q1d
  have q2f := query_fst env pb updateSql (counterParams entityType env.currentYear) w1 h
  have q2s := query_store env pb updateSql (counterParams entityType env.currentYear) w1 h
  have q2d := query_dispatched env pb updateSql (counterParams entityType env.currentYear) w1 h
  rcases hq2 : query env pb updateSql (counterParams entityType env.currentYear) w1 with ⟨r2, w2⟩
  rw [hq2] at q2f q2s q2d
  simp only [queryCall_counterParams] at q2f q2s q2d
  have q3f := query_fst env pb selectSql (counterParams entityType env.currentYear) w2 h
  have q3s := query_store env pb selectSql (counterParams entityType env.currentYear) w2 h
  have q3d := query_dispatched env pb selectSql (counterParams entityType env.currentYear) w2 h
  rcases hq3 : query env pb selectSql (counterParams entityType env.currentYear) w2 with ⟨r3, w3⟩
  rw [hq3] at q3f q3s q3d
  simp only [queryCall_counterParams] at q3f q3s q3d
  simp only [nextNumberStatements, runCalls]
  rcases hp1 : pb.run w.store (.query insertSql (some [.str entityType, .num (env.currentYear : Int)]))
    with ⟨o1, s1⟩
  rw [hp1] at q1f q1s
  simp only at q1f q1s
  subst q1f
  cases r1 with
  | error e => simp [q1s, q1d, numberOfOutcomes]
  | ok v1 =>
    simp only [hq2]
    rw [q1s] at q2f q2s
    rcases hp2 : pb.run s1 (.query updateSql (some [.str entityType, .num (env.currentYear : Int)]))
      with ⟨o2, s2⟩
    rw [hp2] at q2f q2s
    simp only at q2f q2s
    subst q2f
    cases r2 with
    | error e => simp [q2s, q2d, q1d, numberOfOutcomes]
    | ok v2 =>
      simp only [hq3]
      rw [q2s] at q3f q3s
      rcases hp3 : pb.run s2 (.query selectSql (some [.str entityType, .num (env.currentYear : Int)]))
        with ⟨o3, s3⟩
      rw [hp3] at q3f q3s
      simp only at q3f q3s
      subst q3f
      cases r3 with
      | error e => simp [q3s, q3d, q2d, q1d, numberOfOutcomes]
      | ok v3 => simp [q3s, q3d, q2d, q1d, numberOfOutcomes]

/-! ## The counters store under the three statements -/

theorem updateSql_ne_insertSql : updateSql ≠ insertSql := by decide

theorem selectSql_ne_insertSql : selectSql ≠ insertSql := by decide

theorem selectSql_ne_updateSql : selectSql ≠ updateSql := by decide

theorem Counters.set_set (s : Counters) (k : String × Int) (a b : Nat) :
    (s.set k a).set k b = s.set k b := by
  funext k1
  simp only [Counters.set]
  split <;> rfl

theorem Counters.set_same (s : Counters) (k : String × Int) (v : Nat) : (s.set k v) k = some v := by
  simp [Counters.set]

theorem Counters.value_set (s : Counters) (k : String × Int) (v : Nat) : (s.set k v).value k = v := by
  simp [Counters.value, Counters.set]

/-- The three statements of one call, run in order on the counters store:
all succeed, the read-back returns one row holding the incremented counter,
and the store holds that value afterwards. -/
theorem runCalls_counters (s : Counters) (entityType : String) (year : Nat) :
    runCalls countersPool s (nextNumberStatements entityType year)
      = ([.ok (.header (if s (entityType, (year : Int)) = none then 1 else 0)), .ok (.header 1),
            .ok (.rows [[("counter", .num ((s.value (entityType, (year : Int)) + 1 : Nat) : Int))]])],
          s.set (entityType, (year : Int)) (s.value (entityType, (year : Int)) + 1)) := by
  cases hk : s (entityType, (year : Int)) with
  | none =>
    simp [runCalls, nextNumberStatements, countersPool, hk, Counters.value, Counters.set_same,
      Counters.set_set, updateSql_ne_insertSql, selectSql_ne_insertSql, selectSql_ne_updateSql]
  | some c =>
    simp [runCalls, nextNumberStatements, countersPool, hk, Counters.value, Counters.set_same,
      Counters.set_set, updateSql_ne_insertSql, selectSql_ne_insertSql, selectSql_ne_updateSql]

theorem numberText_safe (n : Nat) (h : n ≤ maxSafeInteger) : numberText n = Nat.repr n := by
  simp only [numberText, h, if_true]

theorem jsToString_num (n : Nat) : Scalar.jsToString (.num (n : Int)) = .ok (numberText n) := rfl

theorem formatResult_counter_row (entityType : String) (year : Nat) (n : Nat) (rest : List Row) :
    formatResult entityType year (.rows ([("counter", .num (n : Int))] :: rest))
      = .ok (formatSwitch entityType (numberText n) year) := by
  simp [formatResult, firstCounter, counterText, jsToString_num, List.lookup]

/-- One call on the counters store, on the server. -/
theorem getNextNumber_counters (env : Env) (entityType : String) (w : World Counters)
    (h : env.windowDefined = false) :
    (getNextNumber env countersPool entityType w).1
        = .ok (formatSwitch entityType
            (numberText (w.store.value (entityType, (env.currentYear : Int)) + 1)) env.currentYear)
      ∧ (getNextNumber env countersPool entityType w).2.store
        = w.store.set (entityType, (env.currentYear : Int))
            (w.store.value (entityType, (env.currentYear : Int)) + 1) := by
  have hs := getNextNumber_server env countersPool entityType w h
  rw [runCalls_counters] at hs
  refine ⟨?_, hs.2.1⟩
  rw [hs.1]
  simp only [numberOfOutcomes]
  exact formatResult_counter_row _ _ _ _

/-- Sequential calls on the counters store, on the server: the outcomes are the
formatted values `c + 1`, `c + 2`, ... in call order. -/
theorem callNextNumber_counters (env : Env) (entityType : String)
    (h : env.windowDefined = false) (n : Nat) :
    ∀ w : World Counters,
      (callNextNumber env countersPool entityType n w).1
          = (List.range n).map (fun i => Except.ok (formatSwitch entityType
              (numberText (w.store.value (entityType, (env.currentYear : Int)) + 1 + i))
              env.currentYear))
        ∧ (callNextNumber env countersPool entityType n w).2.store.value
            (entityType, (env.currentYear : Int))
          = w.store.value (entityType, (env.currentYear : Int)) + n := by
  induction n with
  | zero => intro w; simp [callNextNumber]
  | succ n ih =>
    intro w
    have h1 := getNextNumber_counters env entityType w h
    rcases hg : getNextNumber env countersPool entityType w with ⟨r, w1⟩
    rw [hg] at h1
    have h2 := ih w1
    rcases hc : callNextNumber env countersPool entityType n w1 with ⟨rs, w2⟩
    rw [hc] at h2
    simp only at h1 h2
    have hv : w1.store.value (entityType, (env.currentYear : Int))
        = w.store.value (entityType, (env.currentYear : Int)) + 1 := by
      rw [h1.2, Counters.value_set]
    simp only [callNextNumber, hg, hc]
    rw [h2.1, h2.2, h1.1, hv, List.range_succ_eq_map]
    constructor
    · simp only [List.map_cons, List.map_map, Nat.add_zero, List.cons.injEq, true_and]
      apply List.map_congr_left
      intro i _
      simp only [Function.comp]
      congr 3
      omega
    · omega

/-! ## Zero padding -/

theorem flatten_replicate_singleton (k : Nat) (a : Char) :
    (List.replicate k [a]).flatten = List.replicate k a := by
  induction k with
  | zero => rfl
  | succ k ih => simp [List.replicate_succ, ih]

theorem takeUnits_zeros (k : Nat) : takeUnits k (List.replicate k '0') = List.replicate k '0' := by
  induction k with
  | zero => rfl
  | succ k ih =>
    have hu : charUnits '0' = 1 := rfl
    simp only [List.replicate_succ, takeUnits, hu]
    rw [if_pos (by omega), Nat.add_sub_cancel, ih]

/-- For a string of Basic Multilingual Plane characters, `padStart` with `"0"`
is zero padding counted in characters. -/
theorem padStart_zero (s : String) (width : Nat) (hs : jsLength s = s.length) :
    padStart s width "0" = zeroPad width s := by
  unfold padStart zeroPad
  rw [hs]
  by_cases hle : width ≤ s.length
  · have h0 : width - s.length = 0 := by omega
    rw [if_pos hle, h0]
    rfl
  · rw [if_neg hle, if_neg (by decide)]
    have hd : "0".data = [ '0' ] := rfl
    simp only [hd, flatten_replicate_singleton, takeUnits_zeros]

theorem toDigitsCore_units (fuel : Nat) : ∀ (n : Nat) (ds : List Char),
    (∀ ch ∈ ds, charUnits ch = 1) → ∀ ch ∈ Nat.toDigitsCore 10 fuel n ds, charUnits ch = 1 := by
  induction fuel with
  | zero => intro n ds h; simpa [Nat.toDigitsCore] using h
  | succ fuel ih =>
    intro n ds h
    have hd : charUnits (Nat.digitChar (n % 10)) = 1 := by
      have hlt : n % 10 < 10 := Nat.mod_lt _ (by decide)
      generalize n % 10 = k at hlt
      interval_cases k <;> rfl
    have hcons : ∀ ch ∈ Nat.digitChar (n % 10) :: ds, charUnits ch = 1 := by
      intro ch hch
      rcases List.mem_cons.mp hch with h1 | h1
      · rw [h1]; exact hd
      · exact h ch h1
    simp only [Nat.toDigitsCore]
    split
    · exact hcons
    · exact ih _ _ hcons

/-- A decimal text has one code unit for each character. -/
theorem jsLength_repr (n : Nat) : jsLength (Nat.repr n) = (Nat.repr n).length := by
  have h := toDigitsCore_units (n + 1) n [] (by simp)
  simp only [jsLength, Nat.repr, Nat.toDigits, List.asString, String.length]
  generalize Nat.toDigitsCore 10 (n + 1) n [] = ds at h
  induction ds with
  | nil => rfl
  | cons ch rest ih =>
    simp only [List.map_cons, List.sum_cons, List.length_cons]
    rw [h ch (List.mem_cons_self _ _), ih (fun c hc => h c (List.mem_cons_of_mem _ hc))]
    omega

theorem padStart_zero_repr (n width : Nat) :
    padStart (Nat.repr n) width "0" = zeroPad width (Nat.repr n) :=
  padStart_zero _ _ (jsLength_repr n)

theorem zeroPad_length (width : Nat) (digits : String) :
    (zeroPad width digits).length = max width digits.length := by
  unfold zeroPad
  rw [String.length_append]
  simp only [String.length, List.length_replicate]
  omega

/-! ## Claims on the number generator -/

/-- C1. Sequential counter semantics of `getNextNumber` on the counters store,
on the server: with `c` the value stored for `(entityType, year)` before the
call (`0` when the key is absent), the three statements are dispatched in
order and all succeed, the read-back returns a row holding `c + 1`, the call
returns the format of `c + 1`, and the store holds `c + 1` for the key
afterwards.  Hence `n` sequential calls return the formats of `c + 1`,
`c + 2`, ..., `c + n` in that order; while `c + n` does not exceed
`Number.MAX_SAFE_INTEGER` the text formatted for each value is its decimal
text. -/
theorem C1_getNextNumber_sequential (env : Env) (entityType : String) (w : World Counters)
    (n : Nat) (hserver : env.windowDefined = false) :
    (getNextNumber env countersPool entityType w).2.dispatched
        = w.dispatched ++ nextNumberStatements entityType env.currentYear
      ∧ (∃ r1 r2, (runCalls countersPool w.store
            (nextNumberStatements entityType env.currentYear)).1
          = [.ok r1, .ok r2, .ok (.rows [[("counter",
              .num ((w.store.value (entityType, (env.currentYear : Int)) + 1 : Nat) : Int))]])])
      ∧ (getNextNumber env countersPool entityType w).1
        = .ok (formatSwitch entityType
            (numberText (w.store.value (entityType, (env.currentYear : Int)) + 1))
            env.currentYear)
      ∧ (getNextNumber env countersPool entityType w).2.store (entityType, (env.currentYear : Int))
        = some (w.store.value (entityType, (env.currentYear : Int)) + 1)
      ∧ (callNextNumber env countersPool entityType n w).1
        = (List.range n).map (fun i => Except.ok (formatSwitch entityType
            (numberText (w.store.value (entityType, (env.currentYear : Int)) + 1 + i))
            env.currentYear))
      ∧ (w.store.value (entityType, (env.currentYear : Int)) + n ≤ maxSafeInteger →
        (callNextNumber env countersPool entityType n w).1
          = (List.range n).map (fun i => Except.ok (formatSwitch entityType
              (toString (w.store.value (entityType, (env.currentYear : Int)) + 1 + i))
              env.currentYear))) := by
  have hs := getNextNumber_server env countersPool entityType w hserver
  have hc := getNextNumber_counters env entityType w hserver
  have hn := (callNextNumber_counters env entityType hserver n w).1
  refine ⟨?_, ?_, hc.1, ?_, hn, ?_⟩
  · rw [hs.2.2, runCalls_counters]
    simp [nextNumberStatements]
  · rw [runCalls_counters]
    exact ⟨_, _, rfl⟩
  · rw [hc.2, Counters.set_same]
  · intro hsafe
    rw [hn]
    apply List.map_congr_left
    intro i hi
    have hi1 : i < n := List.mem_range.mp hi
    rw [numberText_safe _ (by omega)]
    rfl

/-- C1, instance: a server in 2025, entity type `service_orders`, an empty
counters table, two calls. -/
theorem C1_getNextNumber_sequential_witness :
    (serverEnv 2025).windowDefined = false
      ∧ (callNextNumber (serverEnv 2025) countersPool "service_orders" 2
          (freshWorld Counters.empty)).1
        = (List.range 2).map (fun i => Except.ok (formatSwitch "service_orders"
            (numberText ((freshWorld Counters.empty).store.value
              ("service_orders", ((serverEnv 2025).currentYear : Int)) + 1 + i))
            (serverEnv 2025).currentYear))
      ∧ (callNextNumber (serverEnv 2025) countersPool "service_orders" 2
          (freshWorld Counters.empty)).1 = [.ok "OS-001-2025", .ok "OS-002-2025"] :=
  ⟨rfl, (C1_getNextNumber_sequential (serverEnv 2025) "service_orders"
    (freshWorld Counters.empty) 2 rfl).2.2.2.2.1, by decide⟩

/-- On the server, when the three statements succeed and the read-back returns
a first row whose `counter` is `c`, the call returns the format of the text
`toString()` gives for `c`. -/
theorem getNextNumber_read_back {σ : Type} (env : Env) (pb : PoolBehaviour σ) (w : World σ)
    (entityType : String) (c : Nat) (r1 r2 : PoolResponse) (row : Row) (rest : List Row)
    (hserver : env.windowDefined = false)
    (hrun : (runCalls pb w.store (nextNumberStatements entityType env.currentYear)).1
      = [.ok r1, .ok r2, .ok (.rows (row :: rest))])
    (hrow : row.lookup "counter" = some (.num (c : Int))) :
    (getNextNumber env pb entityType w).1
      = .ok (formatSwitch entityType (numberText c) env.currentYear) := by
  rw [(getNextNumber_server env pb entityType w hserver).1, hrun]
  simp only [numberOfOutcomes, formatResult, firstCounter, hrow, counterText, jsToString_num]

/-- C2, refuted as stated. The counters store holding `2 ^ 64 - 1` for service
orders of 2025: the three statements succeed, the read-back returns
`2 ^ 64 = 18446744073709551616`, and the call returns
`OS-18446744073709552000-2025`, the text `toString()` gives for the Number
nearest to the counter, not its decimal digits. -/
theorem C2_unsafe_counter_counterexample :
    (runCalls countersPool
        (freshWorld (Counters.empty.set ("service_orders", 2025) 18446744073709551615)).store
        (nextNumberStatements "service_orders" (serverEnv 2025).currentYear)).1
        = [.ok (.header 0), .ok (.header 1),
            .ok (.rows [[("counter", .num 18446744073709551616)]])]
      ∧ (getNextNumber (serverEnv 2025) countersPool "service_orders"
          (freshWorld (Counters.empty.set ("service_orders", 2025) 18446744073709551615))).1
        = .ok "OS-18446744073709552000-2025"
      ∧ "OS-" ++ zeroPad 3 (Nat.repr 18446744073709551616) ++ "-" ++ Nat.repr 2025
        = "OS-18446744073709551616-2025"
      ∧ (getNextNumber (serverEnv 2025) countersPool "service_orders"
          (freshWorld (Counters.empty.set ("service_orders", 2025) 18446744073709551615))).1
        ≠ .ok ("OS-" ++ zeroPad 3 (Nat.repr 18446744073709551616) ++ "-" ++ Nat.repr 2025) := by
  set_option maxRecDepth 100000 in decide

/-- C2, amended. Format for service orders: on the server, whenever the three
statements succeed and the read-back returns a first row whose `counter` is a
non-negative integer `c` not above `Number.MAX_SAFE_INTEGER` (`2 ^ 53 - 1`),
`getNextNumber("service_orders")` returns
`"OS-" ++ d ++ "-" ++ decimal(year)`, where `d` is the decimal text of `c`
left-padded with `0` to at least 3 characters, no digit being dropped. -/
theorem C2_format_service_orders {σ : Type} (env : Env) (pb : PoolBehaviour σ) (w : World σ)
    (c : Nat) (r1 r2 : PoolResponse) (row : Row) (rest : List Row)
    (hserver : env.windowDefined = false)
    (hrun : (runCalls pb w.store (nextNumberStatements "service_orders" env.currentYear)).1
      = [.ok r1, .ok r2, .ok (.rows (row :: rest))])
    (hrow : row.lookup "counter" = some (.num (c : Int)))
    (hsafe : c ≤ maxSafeInteger) :
    (getNextNumber env pb "service_orders" w).1
        = .ok ("OS-" ++ zeroPad 3 (Nat.repr c) ++ "-" ++ Nat.repr env.currentYear)
      ∧ 3 ≤ (zeroPad 3 (Nat.repr c)).length
      ∧ (zeroPad 3 (Nat.repr c)).data
        = List.replicate (3 - (Nat.repr c).length) '0' ++ (Nat.repr c).data := by
  refine ⟨?_, ?_, ?_⟩
  · rw [getNextNumber_read_back env pb w "service_orders" c r1 r2 row rest hserver hrun hrow,
      numberText_safe c hsafe]
    simp only [formatSwitch, if_true, padStart_zero_repr]
    rfl
  · rw [zeroPad_length]
    omega
  · simp [zeroPad]

/-- C2 amended, instance: the counters store holding 999 for service orders of
2025; the call reads back 1000 and returns `OS-1000-2025`. -/
theorem C2_format_service_orders_witness :
    (serverEnv 2025).windowDefined = false
      ∧ (runCalls countersPool (freshWorld (Counters.empty.set ("service_orders", 2025) 999)).store
          (nextNumberStatements "service_orders" (serverEnv 2025).currentYear)).1
        = [.ok (.header 0), .ok (.header 1), .ok (.rows ([("counter", .num 1000)] :: []))]
      ∧ List.lookup "counter" [("counter", Scalar.num ((1000 : Nat) : Int))]
        = some (.num ((1000 : Nat) : Int))
      ∧ 1000 ≤ maxSafeInteger
      ∧ (getNextNumber (serverEnv 2025) countersPool "service_orders"
          (freshWorld (Counters.empty.set ("service_orders", 2025) 999))).1
        = .ok ("OS-" ++ zeroPad 3 (Nat.repr 1000) ++ "-" ++ Nat.repr (serverEnv 2025).currentYear)
      ∧ "OS-" ++ zeroPad 3 (Nat.repr 1000) ++ "-" ++ Nat.repr 2025 = "OS-1000-2025"
      ∧ "OS-" ++ zeroPad 3 (Nat.repr 1) ++ "-" ++ Nat.repr 2025 = "OS-001-2025"
      ∧ "OS-" ++ zeroPad 3 (Nat.repr 2) ++ "-" ++ Nat.repr 2025 = "OS-002-2025" :=
  ⟨rfl, by decide, by decide, by decide,
    (C2_format_service_orders (serverEnv 2025) countersPool
      (freshWorld (Counters.empty.set ("service_orders", 2025) 999)) 1000 (.header 0) (.header 1)
      [("counter", .num 1000)] [] rfl (by decide) (by decide) (by decide)).1,
    by decide, by decide, by decide⟩

/-- C3, refuted as stated. The counters store holding `2 ^ 64 - 1` for
equipment of 2025: the three statements succeed, the read-back returns
`2 ^ 64 = 18446744073709551616`, and the call returns
`EQ-18446744073709552000/2025`, the text `toString()` gives for the Number
nearest to the counter, not its decimal digits. -/
theorem C3_unsafe_counter_counterexample :
    "equipment" ≠ "service_orders"
      ∧ (runCalls countersPool
          (freshWorld (Counters.empty.set ("equipment", 2025) 18446744073709551615)).store
          (nextNumberStatements "equipment" (serverEnv 2025).currentYear)).1
        = [.ok (.header 0), .ok (.header 1),
            .ok (.rows [[("counter", .num 18446744073709551616)]])]
      ∧ (getNextNumber (serverEnv 2025) countersPool "equipment"
          (freshWorld (Counters.empty.set ("equipment", 2025) 18446744073709551615))).1
        = .ok "EQ-18446744073709552000/2025"
      ∧ twoDigitPrefix "equipment" ++ zeroPad 2 (Nat.repr 18446744073709551616) ++ "/"
          ++ Nat.repr 2025 = "EQ-18446744073709551616/2025"
      ∧ (getNextNumber (serverEnv 2025) countersPool "equipment"
          (freshWorld (Counters.empty.set ("equipment", 2025) 18446744073709551615))).1
        ≠ .ok (twoDigitPrefix "equipment" ++ zeroPad 2 (Nat.repr 18446744073709551616) ++ "/"
            ++ Nat.repr 2025) := by
  set_option maxRecDepth 100000 in decide

/-- C3, amended. Format for the two-digit entity types: on the server, for
every entity type other than `service_orders`, whenever the three statements
succeed and the read-back returns a first row whose `counter` is a
non-negative integer `c` not above `Number.MAX_SAFE_INTEGER` (`2 ^ 53 - 1`),
`getNextNumber` returns `prefix ++ d ++ "/" ++ decimal(year)`, where `d` is
the decimal text of `c` left-padded with `0` to at least 2 characters, no
digit being dropped, and the prefix is `EQ-` for `equipment`, `EMP-` for
`companies` and empty otherwise. -/
theorem C3_format_two_digit {σ : Type} (env : Env) (pb : PoolBehaviour σ) (w : World σ)
    (entityType : String) (c : Nat) (r1 r2 : PoolResponse) (row : Row) (rest : List Row)
    (hserver : env.windowDefined = false)
    (htype : entityType ≠ "service_orders")
    (hrun : (runCalls pb w.store (nextNumberStatements entityType env.currentYear)).1
      = [.ok r1, .ok r2, .ok (.rows (row :: rest))])
    (hrow : row.lookup "counter" = some (.num (c : Int)))
    (hsafe : c ≤ maxSafeInteger) :
    (getNextNumber env pb entityType w).1
        = .ok (twoDigitPrefix entityType ++ zeroPad 2 (Nat.repr c) ++ "/"
            ++ Nat.repr env.currentYear)
      ∧ 2 ≤ (zeroPad 2 (Nat.repr c)).length
      ∧ (zeroPad 2 (Nat.repr c)).data
        = List.replicate (2 - (Nat.repr c).length) '0' ++ (Nat.repr c).data := by
  refine ⟨?_, ?_, ?_⟩
  · rw [getNextNumber_read_back env pb w entityType c r1 r2 row rest hserver hrun hrow,
      numberText_safe c hsafe]
    simp only [formatSwitch, if_neg htype, padStart_zero_repr, twoDigitPrefix]
    by_cases he : entityType = "equipment"
    · simp only [he, if_true]; rfl
    · by_cases hc : entityType = "companies"
      · simp only [hc, if_true]
        rw [if_neg (by decide)]
        rfl
      · simp only [if_neg he, if_neg hc]
        congr 1
  · rw [zeroPad_length]
    omega
  · simp [zeroPad]

/-- C3 amended, instance: an entity type outside the three named ones, the
counters store holding 2 for it; the call reads back 3 and returns `03/2025`. -/
theorem C3_format_two_digit_witness :
    (serverEnv 2025).windowDefined = false
      ∧ "unknown_type" ≠ "service_orders"
      ∧ (runCalls countersPool (freshWorld (Counters.empty.set ("unknown_type", 2025) 2)).store
          (nextNumberStatements "unknown_type" (serverEnv 2025).currentYear)).1
        = [.ok (.header 0), .ok (.header 1), .ok (.rows ([("counter", .num 3)] :: []))]
      ∧ List.lookup "counter" [("counter", Scalar.num ((3 : Nat) : Int))]
        = some (.num ((3 : Nat) : Int))
      ∧ 3 ≤ maxSafeInteger
      ∧ (getNextNumber (serverEnv 2025) countersPool "unknown_type"
          (freshWorld (Counters.empty.set ("unknown_type", 2025) 2))).1
        = .ok (twoDigitPrefix "unknown_type" ++ zeroPad 2 (Nat.repr 3) ++ "/"
            ++ Nat.repr (serverEnv 2025).currentYear)
      ∧ twoDigitPrefix "unknown_type" ++ zeroPad 2 (Nat.repr 3) ++ "/" ++ Nat.repr 2025 = "03/2025"
      ∧ twoDigitPrefix "equipment" ++ zeroPad 2 (Nat.repr 7) ++ "/" ++ Nat.repr 2025 = "EQ-07/2025"
      ∧ twoDigitPrefix "companies" ++ zeroPad 2 (Nat.repr 123) ++ "/" ++ Nat.repr 2025
        = "EMP-123/2025" :=
  ⟨rfl, by decide, by decide, by decide, by decide,
    (C3_format_two_digit (serverEnv 2025) countersPool
      (freshWorld (Counters.empty.set ("unknown_type", 2025) 2)) "unknown_type" 3 (.header 0)
      (.header 1) [("counter", .num 3)] [] rfl (by decide) (by decide) (by decide) (by decide)).1,
    by decide, by decide, by decide⟩

/-! ## Concurrent callers: sample schedules and the cut into steps -/

example : (runSchedule (serverEnv 2025) countersPool "service_orders" [0, 1, 0, 1, 0, 1]
    (List.replicate 2 .atInsert) (freshWorld Counters.empty)).1
    = [.done (.ok "OS-002-2025"), .done (.ok "OS-002-2025")] := by decide

example : isolated (serverEnv 2025) countersPool "service_orders" [0, 1, 0, 0, 1, 1]
    (List.replicate 2 .atInsert) (freshWorld Counters.empty) = true := by decide

example : (runSchedule (serverEnv 2025) countersPool "service_orders" [0, 1, 0, 0, 1, 1]
    (List.replicate 2 .atInsert) (freshWorld Counters.empty)).1
    = [.done (.ok "OS-001-2025"), .done (.ok "OS-002-2025")] := by decide

/-- Three steps of a call are the call: the step function is a cut of
`getNextNumber` at its `await` points. -/
theorem callerStep_thrice {σ : Type} (env : Env) (pb : PoolBehaviour σ) (entityType : String)
    (w : World σ) :
    callerStep env pb entityType
        (callerStep env pb entityType (callerStep env pb entityType .atInsert w).1
          (callerStep env pb entityType .atInsert w).2).1
        (callerStep env pb entityType (callerStep env pb entityType .atInsert w).1
          (callerStep env pb entityType .atInsert w).2).2
      = (.done (getNextNumber env pb entityType w).1, (getNextNumber env pb entityType w).2) := by
  unfold getNextNumber
  cases hw : env.windowDefined with
  | true => simp [callerStep, hw]
  | false =>
    simp only [callerStep, hw, Bool.false_eq_true, if_false]
    rcases query env pb insertSql (counterParams entityType env.currentYear) w with ⟨r1, w1⟩
    cases r1 with
    | error e => simp [callerStep]
    | ok v1 =>
      simp only [callerStep]
      rcases query env pb updateSql (counterParams entityType env.currentYear) w1 with ⟨r2, w2⟩
      cases r2 with
      | error e => simp [callerStep]
      | ok v2 =>
        simp only [callerStep]
        rcases query env pb selectSql (counterParams entityType env.currentYear) w2 with ⟨r3, w3⟩
        cases r3 with
        | error e => simp
        | ok v3 => simp

/-! ## Decimal texts determine their numbers -/

theorem digitsValue_append_singleton (xs : List Char) (d : Char) :
    digitsValue (xs ++ [d]) = 10 * digitsValue xs + (d.toNat - 48) := by
  simp [digitsValue, List.foldl_append]

theorem digitChar_value (k : Nat) (hk : k < 10) : (Nat.digitChar k).toNat - 48 = k := by
  interval_cases k <;> rfl

theorem toDigitsCore_spec (fuel : Nat) : ∀ (n : Nat) (ds : List Char), n < fuel →
    ∃ xs, Nat.toDigitsCore 10 fuel n ds = xs ++ ds ∧ digitsValue xs = n := by
  induction fuel with
  | zero => intro n ds h; omega
  | succ fuel ih =>
    intro n ds h
    simp only [Nat.toDigitsCore]
    by_cases h0 : n / 10 = 0
    · rw [if_pos h0]
      refine ⟨[Nat.digitChar (n % 10)], rfl, ?_⟩
      have := digitsValue_append_singleton [] (Nat.digitChar (n % 10))
      simp only [List.nil_append] at this
      rw [this, digitChar_value _ (Nat.mod_lt _ (by decide))]
      simp only [digitsValue, List.foldl_nil]
      omega
    · rw [if_neg h0]
      obtain ⟨xs, hxs, hv⟩ := ih (n / 10) (Nat.digitChar (n % 10) :: ds) (by omega)
      refine ⟨xs ++ [Nat.digitChar (n % 10)], ?_, ?_⟩
      · rw [hxs]; simp
      · rw [digitsValue_append_singleton, hv, digitChar_value _ (Nat.mod_lt _ (by decide))]
        omega

theorem digitsValue_repr (n : Nat) : digitsValue (Nat.repr n).data = n := by
  obtain ⟨xs, hxs, hv⟩ := toDigitsCore_spec (n + 1) n [] (by omega)
  simp only [Nat.repr, Nat.toDigits, List.asString, hxs, List.append_nil]
  exact hv

theorem digitsValue_zeros (k : Nat) (ds : List Char) :
    digitsValue (List.replicate k '0' ++ ds) = digitsValue ds := by
  induction k with
  | zero => rfl
  | succ k ih =>
    simp only [List.replicate_succ, List.cons_append]
    simp only [digitsValue, List.foldl_cons] at ih ⊢
    exact ih

theorem digitsValue_zeroPad (width n : Nat) : digitsValue (zeroPad width (Nat.repr n)).data = n := by
  simp only [zeroPad, String.data_append]
  rw [digitsValue_zeros, digitsValue_repr]

/-- Two numbers with the same padded decimal text are equal. -/
theorem zeroPad_repr_injective (width a b : Nat)
    (h : zeroPad width (Nat.repr a) = zeroPad width (Nat.repr b)) : a = b := by
  have := congrArg (fun s => digitsValue s.data) h
  simpa only [digitsValue_zeroPad] using this

theorem append_cancel_middle (p x y q : String) (h : p ++ x ++ q = p ++ y ++ q) : x = y := by
  have hd := congrArg String.data h
  simp only [String.data_append] at hd
  have h1 := List.append_cancel_right hd
  have h2 := List.append_cancel_left h1
  exact String.ext h2

/-- The number format is injective in the counter. -/
theorem formatSwitch_injective (entityType : String) (year a b : Nat)
    (h : formatSwitch entityType (toString a) year = formatSwitch entityType (toString b) year) :
    a = b := by
  have ta : toString a = Nat.repr a := rfl
  have tb : toString b = Nat.repr b := rfl
  simp only [formatSwitch, ta, tb, padStart_zero_repr] at h
  split at h
  · simp only [String.append_assoc] at h
    exact zeroPad_repr_injective 3 a b
      (append_cancel_middle "OS-" _ _ ("-" ++ toString year) (by simpa only [String.append_assoc] using h))
  · split at h
    · exact zeroPad_repr_injective 2 a b
        (append_cancel_middle "EQ-" _ _ ("/" ++ toString year) (by simpa only [String.append_assoc] using h))
    · split at h
      · exact zeroPad_repr_injective 2 a b
          (append_cancel_middle "EMP-" _ _ ("/" ++ toString year) (by simpa only [String.append_assoc] using h))
      · exact zeroPad_repr_injective 2 a b
          (append_cancel_middle "" _ _ ("/" ++ toString year)
            (by simpa only [String.append_assoc, String.empty_append] using h))

/-! ## The steps of a call on the counters store -/

theorem countersPool_insert (s : Counters) (e : String) (y : Int) :
    countersPool.run s (.query insertSql (some [.str e, .num y]))
      = match s (e, y) with
        | none => (.ok (.header 1), s.set (e, y) 0)
        | some _ => (.ok (.header 0), s) := by
  simp [countersPool]

theorem countersPool_update (s : Counters) (e : String) (y : Int) :
    countersPool.run s (.query updateSql (some [.str e, .num y]))
      = match s (e, y) with
        | none => (.ok (.header 0), s)
        | some c => (.ok (.header 1), s.set (e, y) (c + 1)) := by
  simp [countersPool, updateSql_ne_insertSql]

theorem countersPool_select (s : Counters) (e : String) (y : Int) :
    countersPool.run s (.query selectSql (some [.str e, .num y]))
      = match s (e, y) with
        | none => (.ok (.rows []), s)
        | some c => (.ok (.rows [[("counter", .num (c : Int))]]), s) := by
  simp [countersPool, selectSql_ne_insertSql, selectSql_ne_updateSql]

theorem callerStep_insert (env : Env) (entityType : String) (w : World Counters)
    (h : env.windowDefined = false) :
    (callerStep env countersPool entityType .atInsert w).1 = .atUpdate
      ∧ (callerStep env countersPool entityType .atInsert w).2.store
        = match w.store (entityType, (env.currentYear : Int)) with
          | none => w.store.set (entityType, (env.currentYear : Int)) 0
          | some _ => w.store := by
  have qf := query_fst env countersPool insertSql (counterParams entityType env.currentYear) w h
  have qs := query_store env countersPool insertSql (counterParams entityType env.currentYear) w h
  rw [queryCall_counterParams, countersPool_insert] at qf qs
  simp only [callerStep, h, Bool.false_eq_true, if_false]
  rcases hq : query env countersPool insertSql (counterParams entityType env.currentYear) w
    with ⟨r, w1⟩
  rw [hq] at qf qs
  simp only at qf qs
  cases hk : w.store (entityType, (env.currentYear : Int)) <;> simp_all

theorem callerStep_update (env : Env) (entityType : String) (w : World Counters)
    (h : env.windowDefined = false) :
    (callerStep env countersPool entityType .atUpdate w).1 = .atSelect
      ∧ (callerStep env countersPool entityType .atUpdate w).2.store
        = match w.store (entityType, (env.currentYear : Int)) with
          | none => w.store
          | some c => w.store.set (entityType, (env.currentYear : Int)) (c + 1) := by
  have qf := query_fst env countersPool updateSql (counterParams entityType env.currentYear) w h
  have qs := query_store env countersPool updateSql (counterParams entityType env.currentYear) w h
  rw [queryCall_counterParams, countersPool_update] at qf qs
  simp only [callerStep]
  rcases hq : query env countersPool updateSql (counterParams entityType env.currentYear) w
    with ⟨r, w1⟩
  rw [hq] at qf qs
  simp only at qf qs
  cases hk : w.store (entityType, (env.currentYear : Int)) <;> simp_all

theorem callerStep_select (env : Env) (entityType : String) (w : World Counters) (c : Nat)
    (h : env.windowDefined = false)
    (hk : w.store (entityType, (env.currentYear : Int)) = some c) :
    (callerStep env countersPool entityType .atSelect w).1
        = .done (okNumber entityType env.currentYear c)
      ∧ (callerStep env countersPool entityType .atSelect w).2.store = w.store := by
  have qf := query_fst env countersPool selectSql (counterParams entityType env.currentYear) w h
  have qs := query_store env countersPool selectSql (counterParams entityType env.currentYear) w h
  rw [queryCall_counterParams, countersPool_select, hk] at qf qs
  simp only [callerStep]
  rcases hq : query env countersPool selectSql (counterParams entityType env.currentYear) w
    with ⟨r, w1⟩
  rw [hq] at qf qs
  simp only at qf qs
  subst qf
  simp only [qs, formatResult_counter_row, okNumber, and_self]

/-! ## Replacing one caller in the list of callers -/

theorem perm_cons_eraseIdx {α : Type} : ∀ (cs : List α) (i : Nat) (st : α),
    cs.get? i = some st → cs.Perm (st :: cs.eraseIdx i)
  | [], i, st, h => by simp at h
  | a :: t, 0, st, h => by
    simp only [List.get?_cons_zero, Option.some.injEq] at h
    subst h
    simp
  | a :: t, i + 1, st, h => by
    simp only [List.get?_cons_succ] at h
    simp only [List.eraseIdx_cons_succ]
    exact ((perm_cons_eraseIdx t i st h).cons a).trans (List.Perm.swap st a _)

theorem set_perm_cons_eraseIdx {α : Type} : ∀ (cs : List α) (i : Nat) (st st1 : α),
    cs.get? i = some st → (cs.set i st1).Perm (st1 :: cs.eraseIdx i)
  | [], i, st, st1, h => by simp at h
  | a :: t, 0, st, st1, h => by simp
  | a :: t, i + 1, st, st1, h => by
    simp only [List.get?_cons_succ] at h
    simp only [List.eraseIdx_cons_succ, List.set_cons_succ]
    exact ((set_perm_cons_eraseIdx t i st st1 h).cons a).trans (List.Perm.swap st1 a _)

/-! ## The invariant of isolated interleavings -/

theorem CallersInv_perm (entityType : String) (year c0 : Nat) (cs cs1 : List CallerState)
    (w : World Counters) (hp : cs.Perm cs1) (h : CallersInv entityType year c0 cs w) :
    CallersInv entityType year c0 cs1 w := by
  obtain ⟨h1, h2, h3, h4⟩ := h
  have hr : (returned cs).Perm (returned cs1) := hp.filterMap _
  have hc : cs.count .atSelect = cs1.count .atSelect := hp.count_eq _
  refine ⟨?_, ?_, ?_, ?_⟩
  · rintro ⟨st, hst, hne⟩
    exact h1 ⟨st, hp.mem_iff.mpr hst, hne⟩
  · rw [← hr.length_eq, ← hc]; exact h2
  · rw [← hc]; exact h3
  · rw [← hr.length_eq]; exact hr.symm.trans h4

/-- One step of a caller placed at the head of the list keeps the invariant,
provided an increment is taken only when nobody waits for a read-back. -/
theorem CallersInv_head_step (env : Env) (entityType : String) (c0 : Nat) (st : CallerState)
    (rest : List CallerState) (w : World Counters) (hserver : env.windowDefined = false)
    (hiso : st = .atUpdate → (st :: rest).count .atSelect = 0)
    (h : CallersInv entityType env.currentYear c0 (st :: rest) w) :
    CallersInv entityType env.currentYear c0
      ((callerStep env countersPool entityType st w).1 :: rest)
      (callerStep env countersPool entityType st w).2 := by
  obtain ⟨h1, h2, h3, h4⟩ := h
  cases st with
  | atInsert =>
    obtain ⟨e1, e2⟩ := callerStep_insert env entityType w hserver
    rw [e1]
    unfold CallersInv
    rw [e2]
    simp only [returned, List.filterMap_cons, CallerState.result?, List.count_cons,
      beq_iff_eq, reduceCtorEq, if_false, Nat.add_zero] at h2 h3 h4 ⊢
    refine ⟨?_, ?_, h3, h4⟩
    · intro _
      cases hk : w.store (entityType, (env.currentYear : Int)) with
      | none => simp [Counters.set_same]
      | some c => simp [hk]
    · cases hk : w.store (entityType, (env.currentYear : Int)) with
      | none =>
        simp only [Counters.value_set]
        simp only [Counters.value, hk, Option.getD_none] at h2
        exact h2
      | some c => exact h2
  | atUpdate =>
    obtain ⟨e1, e2⟩ := callerStep_update env entityType w hserver
    rw [e1]
    unfold CallersInv
    rw [e2]
    have hex := h1 ⟨.atUpdate, List.mem_cons_self _ _, by simp⟩
    have hz := hiso rfl
    simp only [returned, List.filterMap_cons, CallerState.result?, List.count_cons,
      beq_iff_eq, reduceCtorEq, if_false, if_true, Nat.add_zero] at h2 h3 h4 hz ⊢
    cases hk : w.store (entityType, (env.currentYear : Int)) with
    | none => exact absurd hk hex
    | some c =>
      simp only [Counters.value, hk, Option.getD_some] at h2
      refine ⟨?_, ?_, ?_, h4⟩
      · intro _; simp [Counters.set_same]
      · simp only [Counters.value_set]; omega
      · omega
  | atSelect =>
    have hex := h1 ⟨.atSelect, List.mem_cons_self _ _, by simp⟩
    simp only [returned, List.filterMap_cons, CallerState.result?, List.count_cons,
      beq_iff_eq, if_true] at h2 h3 h4
    cases hk : w.store (entityType, (env.currentYear : Int)) with
    | none => exact absurd hk hex
    | some c =>
      obtain ⟨e1, e2⟩ := callerStep_select env entityType w c hserver hk
      rw [e1]
      unfold CallersInv
      rw [e2]
      simp only [Counters.value, hk, Option.getD_some] at h2
      have hc : c = c0 + 1 + (List.filterMap CallerState.result? rest).length := by omega
      simp only [returned, List.filterMap_cons, CallerState.result?, List.count_cons,
        beq_iff_eq, reduceCtorEq, if_false, Nat.add_zero, List.length_cons]
      refine ⟨fun _ => by simp [hk], ?_, by omega, ?_⟩
      · simp only [Counters.value, hk, Option.getD_some]; omega
      · rw [List.range'_concat, List.map_append, List.map_singleton, Nat.one_mul, ← hc]
        exact (List.Perm.cons _ h4).trans (List.perm_append_singleton _ _).symm
  | done r =>
    simp only [callerStep]
    exact ⟨h1, h2, h3, h4⟩

theorem stepAt_inv (env : Env) (entityType : String) (c0 : Nat) (i : Nat)
    (cs : List CallerState) (w : World Counters) (hserver : env.windowDefined = false)
    (hiso : isolatedStep i cs = true)
    (h : CallersInv entityType env.currentYear c0 cs w) :
    CallersInv entityType env.currentYear c0 (stepAt env countersPool entityType i cs w).1
      (stepAt env countersPool entityType i cs w).2 := by
  unfold stepAt
  cases hg : cs.get? i with
  | none => exact h
  | some st =>
    have p1 := perm_cons_eraseIdx cs i st hg
    have p2 := set_perm_cons_eraseIdx cs i st (callerStep env countersPool entityType st w).1 hg
    have hhead := CallersInv_perm entityType env.currentYear c0 _ _ w p1 h
    have hiso1 : st = .atUpdate → (st :: cs.eraseIdx i).count .atSelect = 0 := by
      intro hst
      rw [← p1.count_eq]
      simp only [isolatedStep, hg, hst, beq_self_eq_true, Bool.not_true, Bool.false_or,
        beq_iff_eq] at hiso
      exact hiso
    exact CallersInv_perm entityType env.currentYear c0 _ _ _ p2.symm
      (CallersInv_head_step env entityType c0 st _ w hserver hiso1 hhead)

theorem runSchedule_inv (env : Env) (entityType : String) (c0 : Nat)
    (hserver : env.windowDefined = false) (sched : List Nat) :
    ∀ (cs : List CallerState) (w : World Counters),
      isolated env countersPool entityType sched cs w = true →
      CallersInv entityType env.currentYear c0 cs w →
      CallersInv entityType env.currentYear c0
        (runSchedule env countersPool entityType sched cs w).1
        (runSchedule env countersPool entityType sched cs w).2 := by
  induction sched with
  | nil => intro cs w _ h; exact h
  | cons i rest ih =>
    intro cs w hiso h
    simp only [isolated, Bool.and_eq_true] at hiso
    simp only [runSchedule]
    exact ih _ _ hiso.2 (stepAt_inv env entityType c0 i cs w hserver hiso.1 h)

theorem stepAt_length {σ : Type} (env : Env) (pb : PoolBehaviour σ) (entityType : String)
    (i : Nat) (cs : List CallerState) (w : World σ) :
    (stepAt env pb entityType i cs w).1.length = cs.length := by
  unfold stepAt
  cases cs.get? i <;> simp

theorem runSchedule_length {σ : Type} (env : Env) (pb : PoolBehaviour σ) (entityType : String)
    (sched : List Nat) : ∀ (cs : List CallerState) (w : World σ),
    (runSchedule env pb entityType sched cs w).1.length = cs.length := by
  induction sched with
  | nil => intro cs w; rfl
  | cons i rest ih =>
    intro cs w
    simp only [runSchedule]
    rw [ih, stepAt_length]

theorem returned_length_of_allDone : ∀ (cs : List CallerState), allDone cs = true →
    (returned cs).length = cs.length ∧ cs.count .atSelect = 0
  | [], _ => by simp [returned]
  | st :: rest, h => by
    simp only [allDone, List.all_cons, Bool.and_eq_true] at h
    have ih := returned_length_of_allDone rest (by simpa [allDone] using h.2)
    cases st with
    | done r =>
      simp only [returned, List.filterMap_cons, CallerState.result?, List.length_cons,
        List.count_cons, beq_iff_eq, reduceCtorEq, if_false, Nat.add_zero]
      exact ⟨by simpa [returned] using ih.1, ih.2⟩
    | atInsert => simp [CallerState.result?] at h
    | atUpdate => simp [CallerState.result?] at h
    | atSelect => simp [CallerState.result?] at h

/-- Up to `Number.MAX_SAFE_INTEGER` distinct counter values give distinct
outcomes. -/
theorem okNumber_injective (entityType : String) (year : Nat) (a b : Nat)
    (ha : a ≤ maxSafeInteger) (hb : b ≤ maxSafeInteger)
    (h : okNumber entityType year a = okNumber entityType year b) : a = b := by
  simp only [okNumber, Except.ok.injEq, numberText_safe a ha, numberText_safe b hb] at h
  exact formatSwitch_injective entityType year a b h

theorem okNumber_safe (entityType : String) (year : Nat) (v : Nat) (hv : v ≤ maxSafeInteger) :
    okNumber entityType year v = .ok (formatSwitch entityType (toString v) year) := by
  simp only [okNumber, numberText_safe v hv]
  rfl

theorem CallersInv_start (entityType : String) (year : Nat) (n : Nat) (w : World Counters) :
    CallersInv entityType year (w.store.value (entityType, (year : Int)))
      (List.replicate n .atInsert) w := by
  have hr : returned (List.replicate n CallerState.atInsert) = [] := by
    induction n with
    | zero => rfl
    | succ n ih => simp [returned, List.replicate_succ, CallerState.result?]
  have hc : (List.replicate n CallerState.atInsert).count .atSelect = 0 := by
    simp [List.count_replicate]
  refine ⟨?_, ?_, ?_, ?_⟩
  · rintro ⟨st, hst, hne⟩
    exact absurd (List.eq_of_mem_replicate hst) hne
  · rw [hr, hc]; rfl
  · rw [hc]; exact Nat.zero_le _
  · rw [hr]; exact List.Perm.refl _

/-- C4, refuted as stated. Two concurrent calls for service orders of 2025 on
an empty counters table, their statements interleaved insert, insert, update,
update, select, select: both calls finish, both return `OS-002-2025`, so the
returned numbers are not pairwise distinct and are not the run 1, 2.  And two
calls that do not overlap at all, on a table holding `2 ^ 53 - 1`: they read
back `2 ^ 53` and `2 ^ 53 + 1`, one and the same Number, and both return
`OS-9007199254740992-2025`. -/
theorem C4_concurrent_duplicate_counterexample :
    allDone (runSchedule (serverEnv 2025) countersPool "service_orders" [0, 1, 0, 1, 0, 1]
        (List.replicate 2 .atInsert) (freshWorld Counters.empty)).1 = true
      ∧ returned (runSchedule (serverEnv 2025) countersPool "service_orders" [0, 1, 0, 1, 0, 1]
          (List.replicate 2 .atInsert) (freshWorld Counters.empty)).1
        = [.ok "OS-002-2025", .ok "OS-002-2025"]
      ∧ ¬ (returned (runSchedule (serverEnv 2025) countersPool "service_orders"
          [0, 1, 0, 1, 0, 1] (List.replicate 2 .atInsert) (freshWorld Counters.empty)).1).Nodup
      ∧ ¬ (returned (runSchedule (serverEnv 2025) countersPool "service_orders"
          [0, 1, 0, 1, 0, 1] (List.replicate 2 .atInsert) (freshWorld Counters.empty)).1).Perm
        ((List.range' 1 2).map (okNumber "service_orders" 2025))
      ∧ isolated (serverEnv 2025) countersPool "service_orders" [0, 0, 0, 1, 1, 1]
          (List.replicate 2 .atInsert)
          (freshWorld (Counters.empty.set ("service_orders", 2025) 9007199254740991)) = true
      ∧ returned (runSchedule (serverEnv 2025) countersPool "service_orders" [0, 0, 0, 1, 1, 1]
          (List.replicate 2 .atInsert)
          (freshWorld (Counters.empty.set ("service_orders", 2025) 9007199254740991))).1
        = [.ok "OS-9007199254740992-2025", .ok "OS-9007199254740992-2025"]
      ∧ ¬ (returned (runSchedule (serverEnv 2025) countersPool "service_orders"
          [0, 0, 0, 1, 1, 1] (List.replicate 2 .atInsert)
          (freshWorld (Counters.empty.set ("service_orders", 2025) 9007199254740991))).1).Nodup := by
  set_option maxRecDepth 100000 in decide

/-- C4, amended. On the server and the counters store, for every entity type,
every `N` and every interleaving of the statements of `N` concurrent calls in
which no caller's increment is executed while another caller stands between
its own increment and its read-back: once all calls have finished, the `N`
returned numbers are the formats of the contiguous run `c + 1, ..., c + N`
(`c` the value stored before, `0` when absent), one for each value, and the
store holds `c + N`; while `c + N` does not exceed `Number.MAX_SAFE_INTEGER`
(`2 ^ 53 - 1`) the returned numbers are pairwise distinct and carry the
decimal texts of `c + 1, ..., c + N`. -/
theorem C4_isolated_interleavings (env : Env) (entityType : String) (N : Nat) (sched : List Nat)
    (w : World Counters) (hserver : env.windowDefined = false)
    (hiso : isolated env countersPool entityType sched (List.replicate N .atInsert) w = true)
    (hdone : allDone (runSchedule env countersPool entityType sched
      (List.replicate N .atInsert) w).1 = true) :
    (returned (runSchedule env countersPool entityType sched
        (List.replicate N .atInsert) w).1).Perm
        ((List.range' (w.store.value (entityType, (env.currentYear : Int)) + 1) N).map
          (okNumber entityType env.currentYear))
      ∧ (w.store.value (entityType, (env.currentYear : Int)) + N ≤ maxSafeInteger →
        (returned (runSchedule env countersPool entityType sched
            (List.replicate N .atInsert) w).1).Nodup
          ∧ (returned (runSchedule env countersPool entityType sched
              (List.replicate N .atInsert) w).1).Perm
            ((List.range' (w.store.value (entityType, (env.currentYear : Int)) + 1) N).map
              (fun v => Except.ok (formatSwitch entityType (toString v) env.currentYear))))
      ∧ (returned (runSchedule env countersPool entityType sched
          (List.replicate N .atInsert) w).1).length = N
      ∧ (runSchedule env countersPool entityType sched
          (List.replicate N .atInsert) w).2.store.value (entityType, (env.currentYear : Int))
        = w.store.value (entityType, (env.currentYear : Int)) + N := by
  have hinv := runSchedule_inv env entityType _ hserver sched _ w hiso
    (CallersInv_start entityType env.currentYear N w)
  have hlen := runSchedule_length env countersPool entityType sched
    (List.replicate N .atInsert) w
  obtain ⟨hl, hc⟩ := returned_length_of_allDone _ hdone
  rw [hlen, List.length_replicate] at hl
  obtain ⟨_, h2, _, h4⟩ := hinv
  rw [hl] at h2 h4
  rw [hc] at h2
  refine ⟨h4, ?_, hl, by omega⟩
  intro hsafe
  have hmem : ∀ v ∈ List.range' (w.store.value (entityType, (env.currentYear : Int)) + 1) N,
      v ≤ maxSafeInteger := by
    intro v hv
    have := List.mem_range'_1.mp hv
    omega
  refine ⟨?_, ?_⟩
  · refine h4.nodup_iff.mpr (List.Nodup.map_on ?_ (List.nodup_range' _ _))
    intro a ha b hb hab
    exact okNumber_injective entityType env.currentYear a b (hmem a ha) (hmem b hb) hab
  · refine h4.trans (List.Perm.of_eq ?_)
    apply List.map_congr_left
    intro v hv
    exact okNumber_safe entityType env.currentYear v (hmem v hv)

/-- C4 amended, instance: two calls whose inserts interleave and whose
increment and read-back pairs do not: they return `OS-001-2025` and
`OS-002-2025`. -/
theorem C4_isolated_interleavings_witness :
    (serverEnv 2025).windowDefined = false
      ∧ isolated (serverEnv 2025) countersPool "service_orders" [0, 1, 0, 0, 1, 1]
          (List.replicate 2 .atInsert) (freshWorld Counters.empty) = true
      ∧ allDone (runSchedule (serverEnv 2025) countersPool "service_orders" [0, 1, 0, 0, 1, 1]
          (List.replicate 2 .atInsert) (freshWorld Counters.empty)).1 = true
      ∧ (freshWorld Counters.empty).store.value
          ("service_orders", ((serverEnv 2025).currentYear : Int)) + 2 ≤ maxSafeInteger
      ∧ (returned (runSchedule (serverEnv 2025) countersPool "service_orders" [0, 1, 0, 0, 1, 1]
          (List.replicate 2 .atInsert) (freshWorld Counters.empty)).1).Nodup
      ∧ returned (runSchedule (serverEnv 2025) countersPool "service_orders" [0, 1, 0, 0, 1, 1]
          (List.replicate 2 .atInsert) (freshWorld Counters.empty)).1
        = [.ok "OS-001-2025", .ok "OS-002-2025"] :=
  ⟨rfl, by decide, by decide, by decide,
    ((C4_isolated_interleavings (serverEnv 2025) "service_orders" 2 [0, 1, 0, 0, 1, 1]
      (freshWorld Counters.empty) rfl (by decide) (by decide)).2.1 (by decide)).1, by decide⟩

/-! ## Statements that fail -/

example : (callNextNumber (serverEnv 2025) (withFaults countersPool) "service_orders" 3
    (freshWorld (Counters.empty,
      planScript [Fault.none, Fault.atSelect connectionLost, Fault.none]))).1
    = [.ok "OS-001-2025", .error connectionLost, .ok "OS-003-2025"] := by decide

theorem runCalls_no_fault (s : Counters) (script : List (Option JSError)) (entityType : String)
    (year : Nat) :
    runCalls (withFaults countersPool) (s, none :: none :: none :: script)
        (nextNumberStatements entityType year)
      = ([.ok (.header (if s (entityType, (year : Int)) = none then 1 else 0)), .ok (.header 1),
            .ok (.rows [[("counter", .num ((s.value (entityType, (year : Int)) + 1 : Nat) : Int))]])],
          (s.set (entityType, (year : Int)) (s.value (entityType, (year : Int)) + 1), script)) := by
  cases hk : s (entityType, (year : Int)) with
  | none =>
    simp [runCalls, nextNumberStatements, withFaults, countersPool_insert, countersPool_update,
      countersPool_select, hk, Counters.value, Counters.set_same, Counters.set_set]
  | some c =>
    simp [runCalls, nextNumberStatements, withFaults, countersPool_insert, countersPool_update,
      countersPool_select, hk, Counters.value, Counters.set_same, Counters.set_set]

theorem runCalls_fault_insert (s : Counters) (script : List (Option JSError)) (e : JSError)
    (entityType : String) (year : Nat) :
    runCalls (withFaults countersPool) (s, some e :: script)
        (nextNumberStatements entityType year)
      = ([.error e], (s, script)) := by
  simp [runCalls, nextNumberStatements, withFaults]

theorem runCalls_fault_update (s : Counters) (script : List (Option JSError)) (e : JSError)
    (entityType : String) (year : Nat) :
    runCalls (withFaults countersPool) (s, none :: some e :: script)
        (nextNumberStatements entityType year)
      = ([.ok (.header (if s (entityType, (year : Int)) = none then 1 else 0)), .error e],
          ((match s (entityType, (year : Int)) with
            | none => s.set (entityType, (year : Int)) 0
            | some _ => s), script)) := by
  cases hk : s (entityType, (year : Int)) with
  | none =>
    simp [runCalls, nextNumberStatements, withFaults, countersPool_insert, hk]
  | some c =>
    simp [runCalls, nextNumberStatements, withFaults, countersPool_insert, hk]

/-- One call under a fault that is not at the read-back: the outcome, the
stored counter afterwards and the remaining script. -/
theorem getNextNumber_fault (env : Env) (entityType : String)
    (w : World (Counters × List (Option JSError))) (f : Fault) (script : List (Option JSError))
    (hserver : env.windowDefined = false) (hf : f.atReadBack = false)
    (hscript : w.store.2 = f.script ++ script) :
    (getNextNumber env (withFaults countersPool) entityType w).1
        = (match f with
          | .none => okNumber entityType env.currentYear
              (w.store.1.value (entityType, (env.currentYear : Int)) + 1)
          | .atInsert e => .error e
          | .atUpdate e => .error e
          | .atSelect e => .error e)
      ∧ (getNextNumber env (withFaults countersPool) entityType w).2.store.1.value
          (entityType, (env.currentYear : Int))
        = w.store.1.value (entityType, (env.currentYear : Int)) + (if f.succeeds then 1 else 0)
      ∧ (getNextNumber env (withFaults countersPool) entityType w).2.store.2 = script := by
  have hs := getNextNumber_server env (withFaults countersPool) entityType w hserver
  have hw : w.store = (w.store.1, f.script ++ script) := by rw [← hscript]
  rw [hw] at hs
  cases f with
  | none =>
    simp only [Fault.script, List.cons_append, List.nil_append] at hs
    rw [runCalls_no_fault] at hs
    rw [hs.1, hs.2.1]
    simp only [numberOfOutcomes, formatResult_counter_row, okNumber, Counters.value_set,
      Fault.succeeds, if_true, and_self]
  | atInsert e =>
    simp only [Fault.script, List.cons_append, List.nil_append] at hs
    rw [runCalls_fault_insert] at hs
    rw [hs.1, hs.2.1]
    simp [numberOfOutcomes, Fault.succeeds]
  | atUpdate e =>
    simp only [Fault.script, List.cons_append, List.nil_append] at hs
    rw [runCalls_fault_update] at hs
    rw [hs.1, hs.2.1]
    cases hk : w.store.1 (entityType, (env.currentYear : Int)) <;>
      simp [numberOfOutcomes, Fault.succeeds, Counters.value, Counters.set_same, hk]
  | atSelect e => simp [Fault.atReadBack] at hf

theorem callNextNumber_faults (env : Env) (entityType : String)
    (hserver : env.windowDefined = false) (plan : List Fault) :
    ∀ w : World (Counters × List (Option JSError)),
      w.store.2 = planScript plan → (∀ f ∈ plan, f.atReadBack = false) →
      okValues (callNextNumber env (withFaults countersPool) entityType plan.length w).1
          = (List.range' (w.store.1.value (entityType, (env.currentYear : Int)) + 1)
              (plan.countP Fault.succeeds)).map
              (fun v => formatSwitch entityType (numberText v) env.currentYear)
        ∧ (callNextNumber env (withFaults countersPool) entityType plan.length w).2.store.1.value
            (entityType, (env.currentYear : Int))
          = w.store.1.value (entityType, (env.currentYear : Int))
            + plan.countP Fault.succeeds := by
  induction plan with
  | nil => intro w _ _; simp [callNextNumber, okValues]
  | cons f fs ih =>
    intro w hscript hplan
    have hf : f.atReadBack = false := hplan f (List.mem_cons_self _ _)
    have h1 := getNextNumber_fault env entityType w f (planScript fs) hserver hf hscript
    rcases hg : getNextNumber env (withFaults countersPool) entityType w with ⟨r, w1⟩
    rw [hg] at h1
    simp only at h1
    have h2 := ih w1 h1.2.2 (fun g hgm => hplan g (List.mem_cons_of_mem _ hgm))
    rcases hc : callNextNumber env (withFaults countersPool) entityType fs.length w1 with ⟨rs, w2⟩
    rw [hc] at h2
    simp only at h2
    simp only [List.length_cons, callNextNumber, hg, hc]
    rw [h2.2, h1.2.1]
    cases f with
    | none =>
      simp only [Fault.succeeds, if_true] at h1 h2 ⊢
      rw [List.countP_cons_of_pos _ _ rfl, List.range'_succ]
      refine ⟨?_, by omega⟩
      rw [h1.1]
      simp only [okValues, okNumber, List.filterMap_cons, List.map_cons]
      simp only [okValues] at h2
      rw [h2.1, h1.2.1]
    | atInsert e =>
      have hn : ¬ (Fault.atInsert e).succeeds = true := by simp [Fault.succeeds]
      simp only [Fault.succeeds, Bool.false_eq_true, if_false, Nat.add_zero] at h1 h2 ⊢
      rw [List.countP_cons_of_neg _ _ hn]
      refine ⟨?_, rfl⟩
      rw [h1.1]
      simp only [okValues, List.filterMap_cons]
      simp only [okValues] at h2
      rw [h2.1, h1.2.1]
    | atUpdate e =>
      have hn : ¬ (Fault.atUpdate e).succeeds = true := by simp [Fault.succeeds]
      simp only [Fault.succeeds, Bool.false_eq_true, if_false, Nat.add_zero] at h1 h2 ⊢
      rw [List.countP_cons_of_neg _ _ hn]
      refine ⟨?_, rfl⟩
      rw [h1.1]
      simp only [okValues, List.filterMap_cons]
      simp only [okValues] at h2
      rw [h2.1, h1.2.1]
    | atSelect e => simp [Fault.atReadBack] at hf

/-- C5, refuted as stated. Three sequential calls for service orders of 2025 on
an empty counters table, the second failing at its read-back: the successful
calls return `OS-001-2025` and `OS-003-2025`, the value 2 is skipped; and the
failing call, started with the counter at 1, leaves it at 2. -/
theorem C5_gap_after_failed_read_back_counterexample :
    (callNextNumber (serverEnv 2025) (withFaults countersPool) "service_orders" 3
        (freshWorld (Counters.empty,
          planScript [Fault.none, Fault.atSelect connectionLost, Fault.none]))).1
        = [.ok "OS-001-2025", .error connectionLost, .ok "OS-003-2025"]
      ∧ okValues (callNextNumber (serverEnv 2025) (withFaults countersPool) "service_orders" 3
          (freshWorld (Counters.empty,
            planScript [Fault.none, Fault.atSelect connectionLost, Fault.none]))).1
        ≠ (List.range' 1 2).map (fun v => formatSwitch "service_orders" (toString v) 2025)
      ∧ (getNextNumber (serverEnv 2025) (withFaults countersPool) "service_orders"
          (freshWorld (Counters.empty.set ("service_orders", 2025) 1,
            (Fault.atSelect connectionLost).script))).1 = .error connectionLost
      ∧ (getNextNumber (serverEnv 2025) (withFaults countersPool) "service_orders"
          (freshWorld (Counters.empty.set ("service_orders", 2025) 1,
            (Fault.atSelect connectionLost).script))).2.store.1.value ("service_orders", 2025)
        = 2 := by
  decide

/-- C5, amended. On the server and the counters store, for every entity type
and every sequence of sequential calls in which a call may fail at its insert
or at its update statement (a failing statement leaves the table as it was)
and no call fails at its read-back: the numbers returned by the successful
calls are the formats of `c + 1, c + 2, ...` with no value skipped (`c` the
value stored before, `0` when absent; the format of a value is the module's
format of the text `toString()` gives for it), the store ends at `c` plus the
number of successful calls, and each failing call leaves the stored counter at
the value it had before the call; while the counter does not exceed
`Number.MAX_SAFE_INTEGER` the returned numbers carry the decimal texts of
`c + 1, c + 2, ...`. -/
theorem C5_gap_free_without_read_back_failure (env : Env) (entityType : String)
    (plan : List Fault) (w : World (Counters × List (Option JSError)))
    (hserver : env.windowDefined = false)
    (hscript : w.store.2 = planScript plan)
    (hplan : ∀ f ∈ plan, f.atReadBack = false) :
    okValues (callNextNumber env (withFaults countersPool) entityType plan.length w).1
        = (List.range' (w.store.1.value (entityType, (env.currentYear : Int)) + 1)
            (plan.countP Fault.succeeds)).map
            (fun v => formatSwitch entityType (numberText v) env.currentYear)
      ∧ (callNextNumber env (withFaults countersPool) entityType plan.length w).2.store.1.value
          (entityType, (env.currentYear : Int))
        = w.store.1.value (entityType, (env.currentYear : Int)) + plan.countP Fault.succeeds
      ∧ (∀ f ∈ plan, ∀ (w1 : World (Counters × List (Option JSError)))
          (script : List (Option JSError)),
          f.succeeds = false → w1.store.2 = f.script ++ script →
          (∃ e, (getNextNumber env (withFaults countersPool) entityType w1).1 = .error e)
            ∧ (getNextNumber env (withFaults countersPool) entityType w1).2.store.1.value
                (entityType, (env.currentYear : Int))
              = w1.store.1.value (entityType, (env.currentYear : Int)))
      ∧ (w.store.1.value (entityType, (env.currentYear : Int)) + plan.countP Fault.succeeds
          ≤ maxSafeInteger →
        okValues (callNextNumber env (withFaults countersPool) entityType plan.length w).1
          = (List.range' (w.store.1.value (entityType, (env.currentYear : Int)) + 1)
              (plan.countP Fault.succeeds)).map
              (fun v => formatSwitch entityType (toString v) env.currentYear)) := by
  have hmain := callNextNumber_faults env entityType hserver plan w hscript hplan
  refine ⟨hmain.1, hmain.2, ?_, ?_⟩
  rotate_left
  · intro hsafe
    rw [hmain.1]
    apply List.map_congr_left
    intro v hv
    have := List.mem_range'_1.mp hv
    rw [numberText_safe v (by omega)]
    rfl
  intro f hf w1 script hfail hs1
  have h1 := getNextNumber_fault env entityType w1 f script hserver (hplan f hf) hs1
  rw [hfail] at h1
  refine ⟨?_, by simpa using h1.2.1⟩
  cases f with
  | none => simp [Fault.succeeds] at hfail
  | atInsert e => exact ⟨e, h1.1⟩
  | atUpdate e => exact ⟨e, h1.1⟩
  | atSelect e => exact ⟨e, h1.1⟩

/-- C5 amended, instance: four calls on an empty table, the second failing at
its update and the third at its insert; the successful calls return
`OS-001-2025` and `OS-002-2025`. -/
theorem C5_gap_free_without_read_back_failure_witness :
    (serverEnv 2025).windowDefined = false
      ∧ (freshWorld (Counters.empty, planScript [Fault.none, Fault.atUpdate connectionLost,
          Fault.atInsert connectionLost, Fault.none])).store.2
        = planScript [Fault.none, Fault.atUpdate connectionLost,
          Fault.atInsert connectionLost, Fault.none]
      ∧ (∀ f ∈ [Fault.none, Fault.atUpdate connectionLost,
          Fault.atInsert connectionLost, Fault.none], f.atReadBack = false)
      ∧ okValues (callNextNumber (serverEnv 2025) (withFaults countersPool) "service_orders"
          [Fault.none, Fault.atUpdate connectionLost, Fault.atInsert connectionLost,
            Fault.none].length
          (freshWorld (Counters.empty, planScript [Fault.none, Fault.atUpdate connectionLost,
            Fault.atInsert connectionLost, Fault.none]))).1
        = (List.range' ((freshWorld (Counters.empty, planScript [Fault.none,
              Fault.atUpdate connectionLost, Fault.atInsert connectionLost,
              Fault.none])).store.1.value ("service_orders", ((serverEnv 2025).currentYear : Int)) + 1)
            ([Fault.none, Fault.atUpdate connectionLost, Fault.atInsert connectionLost,
              Fault.none].countP Fault.succeeds)).map
            (fun v => formatSwitch "service_orders" (numberText v) (serverEnv 2025).currentYear)
      ∧ okValues (callNextNumber (serverEnv 2025) (withFaults countersPool) "service_orders" 4
          (freshWorld (Counters.empty, planScript [Fault.none, Fault.atUpdate connectionLost,
            Fault.atInsert connectionLost, Fault.none]))).1 = ["OS-001-2025", "OS-002-2025"] :=
  ⟨rfl, rfl, by decide,
    (C5_gap_free_without_read_back_failure (serverEnv 2025) "service_orders"
      [Fault.none, Fault.atUpdate connectionLost, Fault.atInsert connectionLost, Fault.none]
      (freshWorld (Counters.empty, planScript [Fault.none, Fault.atUpdate connectionLost,
        Fault.atInsert connectionLost, Fault.none])) rfl rfl (by decide)).1,
    by decide⟩

/-! ## Failure propagation -/

/-- The outcomes of three calls run in order and stopped at the first failure
have one of four shapes. -/
theorem runCalls_three {σ : Type} (pb : PoolBehaviour σ) (s : σ) (c1 c2 c3 : PoolCall) :
    (∃ e, (runCalls pb s [c1, c2, c3]).1 = [.error e])
      ∨ (∃ r1 e, (runCalls pb s [c1, c2, c3]).1 = [.ok r1, .error e])
      ∨ (∃ r1 r2 e, (runCalls pb s [c1, c2, c3]).1 = [.ok r1, .ok r2, .error e])
      ∨ (∃ r1 r2 r3, (runCalls pb s [c1, c2, c3]).1 = [.ok r1, .ok r2, .ok r3]) := by
  rcases h1 : pb.run s c1 with ⟨o1, s1⟩
  cases o1 with
  | error e => exact Or.inl ⟨e, by simp [runCalls, h1]⟩
  | ok r1 =>
    rcases h2 : pb.run s1 c2 with ⟨o2, s2⟩
    cases o2 with
    | error e => exact Or.inr (Or.inl ⟨r1, e, by simp [runCalls, h1, h2]⟩)
    | ok r2 =>
      rcases h3 : pb.run s2 c3 with ⟨o3, s3⟩
      cases o3 with
      | error e => exact Or.inr (Or.inr (Or.inl ⟨r1, r2, e, by simp [runCalls, h1, h2, h3]⟩))
      | ok r3 => exact Or.inr (Or.inr (Or.inr ⟨r1, r2, r3, by simp [runCalls, h1, h2, h3]⟩))

/-- C6. Failure propagation in `getNextNumber`: on the server, for every entity
type and every pool, with the three statements run in order and stopped at the
first failure, if a statement fails with error `e` then `getNextNumber` fails
with `e` (it returns no formatted string), later statements are not dispatched,
and a formatted number is returned only if all three statements succeeded. -/
theorem C6_failure_propagation {σ : Type} (env : Env) (pb : PoolBehaviour σ)
    (entityType : String) (w : World σ) (hserver : env.windowDefined = false) :
    (∀ e, Except.error e ∈ (runCalls pb w.store
          (nextNumberStatements entityType env.currentYear)).1 →
        (getNextNumber env pb entityType w).1 = .error e)
      ∧ (∀ text, (getNextNumber env pb entityType w).1 = .ok text →
        ∃ r1 r2 r3, (runCalls pb w.store (nextNumberStatements entityType env.currentYear)).1
          = [.ok r1, .ok r2, .ok r3])
      ∧ (getNextNumber env pb entityType w).2.dispatched
        = w.dispatched ++ (nextNumberStatements entityType env.currentYear).take
            (runCalls pb w.store (nextNumberStatements entityType env.currentYear)).1.length := by
  have hs := getNextNumber_server env pb entityType w hserver
  refine ⟨?_, ?_, hs.2.2⟩
  · intro e he
    rw [hs.1]
    rcases runCalls_three pb w.store _ _ _ with ⟨e1, h⟩ | ⟨r1, e1, h⟩ | ⟨r1, r2, e1, h⟩ |
      ⟨r1, r2, r3, h⟩ <;>
      simp only [nextNumberStatements] at he h ⊢ <;> rw [h] at he ⊢ <;>
      simp [numberOfOutcomes] at he ⊢ <;> exact he.symm
  · intro text ht
    rw [hs.1] at ht
    rcases runCalls_three pb w.store _ _ _ with ⟨e1, h⟩ | ⟨r1, e1, h⟩ | ⟨r1, r2, e1, h⟩ |
      ⟨r1, r2, r3, h⟩ <;>
      simp only [nextNumberStatements] at ht h ⊢ <;> rw [h] at ht ⊢ <;>
      simp [numberOfOutcomes] at ht ⊢

/-- C6, instance: the counters store with the update statement failing by a
lost connection; the call fails with that error after two dispatched
statements. -/
theorem C6_failure_propagation_witness :
    (serverEnv 2025).windowDefined = false
      ∧ Except.error connectionLost ∈ (runCalls (withFaults countersPool)
          (freshWorld (Counters.empty, [none, some connectionLost])).store
          (nextNumberStatements "equipment" (serverEnv 2025).currentYear)).1
      ∧ (getNextNumber (serverEnv 2025) (withFaults countersPool) "equipment"
          (freshWorld (Counters.empty, [none, some connectionLost]))).1 = .error connectionLost :=
  ⟨rfl, by decide,
    (C6_failure_propagation (serverEnv 2025) (withFaults countersPool) "equipment"
      (freshWorld (Counters.empty, [none, some connectionLost])) rfl).1 connectionLost
      (by decide)⟩

/-! ## Parameters and errors of the three entry points -/

theorem queryDirect_fst {σ : Type} (env : Env) (pb : PoolBehaviour σ) (sql : String)
    (ps : JSValue) (w : World σ) (h : env.windowDefined = false) :
    (queryDirect env pb sql ps w).1 = (pb.run w.store (queryCall sql ps)).1 := by
  unfold queryDirect createPool queryCall
  simp only [h, Bool.false_eq_true, if_false]
  cases hp : w.pool <;> simp only [World.say, World.afterCall] <;> split <;> simp_all

theorem queryDirect_store {σ : Type} (env : Env) (pb : PoolBehaviour σ) (sql : String)
    (ps : JSValue) (w : World σ) (h : env.windowDefined = false) :
    (queryDirect env pb sql ps w).2.store = (pb.run w.store (queryCall sql ps)).2 := by
  unfold queryDirect createPool queryCall
  simp only [h, Bool.false_eq_true, if_false]
  cases hp : w.pool <;> simp only [World.say, World.afterCall] <;> split <;> simp_all

theorem queryDirect_dispatched {σ : Type} (env : Env) (pb : PoolBehaviour σ) (sql : String)
    (ps : JSValue) (w : World σ) (h : env.windowDefined = false) :
    (queryDirect env pb sql ps w).2.dispatched = w.dispatched ++ [queryCall sql ps] := by
  unfold queryDirect createPool queryCall
  simp only [h, Bool.false_eq_true, if_false]
  cases hp : w.pool <;> simp only [World.say, World.afterCall] <;> split <;> simp_all

theorem execute_fst {σ : Type} (env : Env) (pb : PoolBehaviour σ) (sql : String)
    (ps : JSValue) (w : World σ) (h : env.windowDefined = false) :
    (execute env pb sql ps w).1 = (pb.run w.store (.execute sql (defaultParams ps))).1 := by
  unfold execute createPool
  simp only [h, Bool.false_eq_true, if_false]
  cases hp : w.pool <;> simp only [World.say, World.afterCall, hp] <;> split <;> simp_all

theorem execute_store {σ : Type} (env : Env) (pb : PoolBehaviour σ) (sql : String)
    (ps : JSValue) (w : World σ) (h : env.windowDefined = false) :
    (execute env pb sql ps w).2.store = (pb.run w.store (.execute sql (defaultParams ps))).2 := by
  unfold execute createPool
  simp only [h, Bool.false_eq_true, if_false]
  cases hp : w.pool <;> simp only [World.say, World.afterCall, hp] <;> split <;> simp_all

theorem execute_dispatched {σ : Type} (env : Env) (pb : PoolBehaviour σ) (sql : String)
    (ps : JSValue) (w : World σ) (h : env.windowDefined = false) :
    (execute env pb sql ps w).2.dispatched
      = w.dispatched ++ [.execute sql (defaultParams ps)] := by
  unfold execute createPool
  simp only [h, Bool.false_eq_true, if_false]
  cases hp : w.pool <;> simp only [World.say, World.afterCall, hp] <;> split <;> simp_all

theorem queryCall_not_array (sql : String) (params : JSValue) (h : params.isArray = false) :
    queryCall sql params = .query sql none := by
  cases params <;> simp_all [queryCall, defaultParams, safeParamsOf, JSValue.isArray]

theorem queryCall_empty (sql : String) : queryCall sql (.array []) = .query sql none := by
  simp [queryCall, defaultParams, safeParamsOf]

/-- C7, what the code does. On the server, for every `params` value that is
not an array: `query` and `queryDirect` dispatch the statement, and end, as
they do for `params = []`; `execute` hands `params` itself to `pool.execute`
(only an absent value is replaced by `[]`), so for every value other than
`undefined` its call differs from the one for `params = []`. -/
theorem C7_execute_forwards_non_array_params {σ : Type} (env : Env) (pb : PoolBehaviour σ)
    (sql : String) (params : JSValue) (w : World σ) (hserver : env.windowDefined = false)
    (hnot : params.isArray = false) :
    ((query env pb sql params w).1 = (query env pb sql (.array []) w).1
        ∧ (query env pb sql params w).2.store = (query env pb sql (.array []) w).2.store
        ∧ (query env pb sql params w).2.dispatched = w.dispatched ++ [.query sql none]
        ∧ (query env pb sql (.array []) w).2.dispatched = w.dispatched ++ [.query sql none])
      ∧ ((queryDirect env pb sql params w).1 = (queryDirect env pb sql (.array []) w).1
        ∧ (queryDirect env pb sql params w).2.store
          = (queryDirect env pb sql (.array []) w).2.store
        ∧ (queryDirect env pb sql params w).2.dispatched = w.dispatched ++ [.query sql none]
        ∧ (queryDirect env pb sql (.array []) w).2.dispatched
          = w.dispatched ++ [.query sql none])
      ∧ (execute env pb sql params w).2.dispatched
        = w.dispatched ++ [.execute sql (defaultParams params)]
      ∧ (execute env pb sql (.array []) w).2.dispatched
        = w.dispatched ++ [.execute sql (.array [])]
      ∧ (params ≠ .undefined →
        (execute env pb sql params w).2.dispatched = w.dispatched ++ [.execute sql params]
          ∧ (execute env pb sql params w).2.dispatched
            ≠ (execute env pb sql (.array []) w).2.dispatched) := by
  refine ⟨⟨?_, ?_, ?_, ?_⟩, ⟨?_, ?_, ?_, ?_⟩, ?_, ?_, ?_⟩
  · rw [query_fst _ _ _ _ _ hserver, query_fst _ _ _ _ _ hserver,
      queryCall_not_array sql params hnot, queryCall_empty]
  · rw [query_store _ _ _ _ _ hserver, query_store _ _ _ _ _ hserver,
      queryCall_not_array sql params hnot, queryCall_empty]
  · rw [query_dispatched _ _ _ _ _ hserver, queryCall_not_array sql params hnot]
  · rw [query_dispatched _ _ _ _ _ hserver, queryCall_empty]
  · rw [queryDirect_fst _ _ _ _ _ hserver, queryDirect_fst _ _ _ _ _ hserver,
      queryCall_not_array sql params hnot, queryCall_empty]
  · rw [queryDirect_store _ _ _ _ _ hserver, queryDirect_store _ _ _ _ _ hserver,
      queryCall_not_array sql params hnot, queryCall_empty]
  · rw [queryDirect_dispatched _ _ _ _ _ hserver, queryCall_not_array sql params hnot]
  · rw [queryDirect_dispatched _ _ _ _ _ hserver, queryCall_empty]
  · exact execute_dispatched env pb sql params w hserver
  · exact execute_dispatched env pb sql (.array []) w hserver
  · intro hdef
    rw [execute_dispatched _ _ _ _ _ hserver, execute_dispatched _ _ _ _ _ hserver]
    cases params <;> simp_all [defaultParams, JSValue.isArray]

/-- C7, at the failing input `execute("SELECT 1", null)`: the pool receives
`null` as the parameters, not the empty array. -/
theorem C7_execute_forwards_non_array_params_witness :
    (serverEnv 2025).windowDefined = false
      ∧ JSValue.null.isArray = false
      ∧ JSValue.null ≠ JSValue.undefined
      ∧ (execute (serverEnv 2025) acceptingPool "SELECT 1" .null (freshWorld ())).2.dispatched
        = (freshWorld ()).dispatched ++ [.execute "SELECT 1" .null]
      ∧ (execute (serverEnv 2025) acceptingPool "SELECT 1" .null (freshWorld ())).2.dispatched
        ≠ (execute (serverEnv 2025) acceptingPool "SELECT 1" (.array [])
            (freshWorld ())).2.dispatched :=
  ⟨rfl, rfl, by decide,
    (C7_execute_forwards_non_array_params (serverEnv 2025) acceptingPool "SELECT 1" .null
      (freshWorld ()) rfl rfl).2.2.2.2 (by decide)⟩

/-- C8, refuted as stated. With a pool that refuses the connection, each of
`query`, `queryDirect` and `execute` fails with the error object of the pool
itself: it is not a `QueryError` and carries neither the SQL text nor the
parameters. -/
theorem C8_error_not_wrapped_counterexample :
    (query (serverEnv 2025) (failingPool connectionRefused) "SELECT 1" (.array [])
        (freshWorld ())).1 = .error connectionRefused
      ∧ (queryDirect (serverEnv 2025) (failingPool connectionRefused) "SELECT 1" (.array [])
        (freshWorld ())).1 = .error connectionRefused
      ∧ (execute (serverEnv 2025) (failingPool connectionRefused) "SELECT 1" (.array [])
        (freshWorld ())).1 = .error connectionRefused
      ∧ isQueryErrorFor connectionRefused "SELECT 1" (.array []) = false := by
  decide

/-- C8, amended. On the server, for each of `query`, `queryDirect` and
`execute`, whenever the pool call fails with error `e`, the entry point fails
(it returns no value) and the error it raises is `e` itself, unchanged; the
SQL text and the parameters of the call are written to the console, in the
three error lines that end the output of the call, and are not attached to
the error. -/
theorem C8_error_rethrown_unchanged {σ : Type} (env : Env) (pb : PoolBehaviour σ) (sql : String)
    (params : JSValue) (w : World σ) (e : JSError) (hserver : env.windowDefined = false) :
    ((pb.run w.store (queryCall sql params)).1 = .error e →
        (query env pb sql params w).1 = .error e
          ∧ (query env pb sql params w).2.log = w.log ++
            [⟨.log, "🔍 [DATABASE QUERY] SQL:", .sql sql⟩,
             ⟨.log, "🔍 [DATABASE QUERY] Parâmetros:", .params (defaultParams params)⟩,
             ⟨.error, "❌ [DATABASE QUERY] Erro:", .error e⟩,
             ⟨.error, "❌ [DATABASE QUERY] SQL:", .sql sql⟩,
             ⟨.error, "❌ [DATABASE QUERY] Parâmetros:", .params (defaultParams params)⟩])
      ∧ ((pb.run w.store (queryCall sql params)).1 = .error e →
        (queryDirect env pb sql params w).1 = .error e
          ∧ (queryDirect env pb sql params w).2.log = w.log ++
            [⟨.log, "🔍 [DATABASE DIRECT] SQL:", .sql sql⟩,
             ⟨.log, "🔍 [DATABASE DIRECT] Parâmetros:", .params (defaultParams params)⟩,
             ⟨.error, "❌ [DATABASE DIRECT] Erro:", .error e⟩,
             ⟨.error, "❌ [DATABASE DIRECT] SQL:", .sql sql⟩,
             ⟨.error, "❌ [DATABASE DIRECT] Parâmetros:", .params (defaultParams params)⟩])
      ∧ ((pb.run w.store (.execute sql (defaultParams params))).1 = .error e →
        (execute env pb sql params w).1 = .error e
          ∧ (execute env pb sql params w).2.log = w.log ++
            [⟨.log, "🔍 [DATABASE] Executando SQL:", .sql sql⟩,
             ⟨.log, "🔍 [DATABASE] Parâmetros:", .params (defaultParams params)⟩,
             ⟨.error, "❌ [DATABASE] Erro na execução:", .error e⟩,
             ⟨.error, "❌ [DATABASE] SQL:", .sql sql⟩,
             ⟨.error, "❌ [DATABASE] Parâmetros:", .params (defaultParams params)⟩]) := by
  refine ⟨?_, ?_, ?_⟩
  · intro hfail
    refine ⟨by rw [query_fst _ _ _ _ _ hserver, hfail], ?_⟩
    unfold query createPool
    unfold queryCall at hfail
    simp only [hserver, Bool.false_eq_true, if_false]
    cases hp : w.pool <;> simp only [World.say, World.afterCall] <;> split <;>
      simp_all
  · intro hfail
    refine ⟨by rw [queryDirect_fst _ _ _ _ _ hserver, hfail], ?_⟩
    unfold queryDirect createPool
    unfold queryCall at hfail
    simp only [hserver, Bool.false_eq_true, if_false]
    cases hp : w.pool <;> simp only [World.say, World.afterCall] <;> split <;>
      simp_all
  · intro hfail
    refine ⟨by rw [execute_fst _ _ _ _ _ hserver, hfail], ?_⟩
    unfold execute createPool
    simp only [hserver, Bool.false_eq_true, if_false]
    cases hp : w.pool <;> simp only [World.say, World.afterCall, hp] <;> split <;>
      simp_all [executeCatchLines]

/-- C8 amended, instance: a pool refusing the connection; `query` and `execute`
fail with the error of the pool. -/
theorem C8_error_rethrown_unchanged_witness :
    (serverEnv 2025).windowDefined = false
      ∧ ((failingPool connectionRefused).run (freshWorld ()).store
          (queryCall "SELECT 1" (.array [.num 7]))).1 = .error connectionRefused
      ∧ ((failingPool connectionRefused).run (freshWorld ()).store
          (.execute "SELECT 1" (defaultParams (.array [.num 7])))).1 = .error connectionRefused
      ∧ (query (serverEnv 2025) (failingPool connectionRefused) "SELECT 1" (.array [.num 7])
          (freshWorld ())).1 = .error connectionRefused
      ∧ (queryDirect (serverEnv 2025) (failingPool connectionRefused) "SELECT 1"
          (.array [.num 7]) (freshWorld ())).1 = .error connectionRefused
      ∧ (execute (serverEnv 2025) (failingPool connectionRefused) "SELECT 1" (.array [.num 7])
          (freshWorld ())).1 = .error connectionRefused :=
  ⟨rfl, rfl, rfl,
    ((C8_error_rethrown_unchanged (serverEnv 2025) (failingPool connectionRefused) "SELECT 1"
      (.array [.num 7]) (freshWorld ()) connectionRefused rfl).1 rfl).1,
    ((C8_error_rethrown_unchanged (serverEnv 2025) (failingPool connectionRefused) "SELECT 1"
      (.array [.num 7]) (freshWorld ()) connectionRefused rfl).2.1 rfl).1,
    ((C8_error_rethrown_unchanged (serverEnv 2025) (failingPool connectionRefused) "SELECT 1"
      (.array [.num 7]) (freshWorld ()) connectionRefused rfl).2.2 rfl).1⟩

/-! ## The client-side check -/

/-- C9. Client-side rejection: when a global `window` is defined, each of
`createPool`, `query`, `queryDirect`, `execute`, `getNextNumber` and
`getConnection` fails with an error for every argument value, every pool and
every world, and leaves the world as it was: the variable `pool` is not
assigned, no pool is constructed, no call is dispatched, nothing is printed. -/
theorem C9_client_side_rejection {σ : Type} (env : Env) (pb : PoolBehaviour σ) (sql : String)
    (params : JSValue) (entityType : String) (w : World σ)
    (hbrowser : env.windowDefined = true) :
    createPool env w
        = (.error (mkError "Database operations are not allowed on the client side"), w)
      ∧ query env pb sql params w
        = (.error (mkError "Database queries are not allowed on the client side"), w)
      ∧ queryDirect env pb sql params w
        = (.error (mkError "Database queries are not allowed on the client side"), w)
      ∧ execute env pb sql params w
        = (.error (mkError "Database operations are not allowed on the client side"), w)
      ∧ getNextNumber env pb entityType w
        = (.error (mkError "Database operations are not allowed on the client side"), w)
      ∧ getConnection env pb w
        = (.error (mkError "Database operations are not allowed on the client side"), w) := by
  refine ⟨?_, ?_, ?_, ?_, ?_, ?_⟩
  · simp only [createPool, hbrowser, if_true]
  · simp only [query, hbrowser, if_true]
  · simp only [queryDirect, hbrowser, if_true]
  · simp only [execute, hbrowser, if_true]
  · simp only [getNextNumber, hbrowser, if_true]
  · simp only [getConnection, hbrowser, if_true]

/-- C9, instance: a browser context, a pool that would accept every call. -/
theorem C9_client_side_rejection_witness :
    (browserEnv 2025).windowDefined = true
      ∧ createPool (browserEnv 2025) (freshWorld ())
        = (.error (mkError "Database operations are not allowed on the client side"),
            freshWorld ())
      ∧ query (browserEnv 2025) acceptingPool "SELECT 1" (.array []) (freshWorld ())
        = (.error (mkError "Database queries are not allowed on the client side"),
            freshWorld ())
      ∧ getNextNumber (browserEnv 2025) acceptingPool "equipment" (freshWorld ())
        = (.error (mkError "Database operations are not allowed on the client side"),
            freshWorld ()) :=
  ⟨rfl,
    (C9_client_side_rejection (browserEnv 2025) acceptingPool "SELECT 1" (.array [])
      "equipment" (freshWorld ()) rfl).1,
    (C9_client_side_rejection (browserEnv 2025) acceptingPool "SELECT 1" (.array [])
      "equipment" (freshWorld ()) rfl).2.1,
    (C9_client_side_rejection (browserEnv 2025) acceptingPool "SELECT 1" (.array [])
      "equipment" (freshWorld ()) rfl).2.2.2.2.1⟩

/-! ## The location guard -/

theorem joinWith_begins_append (sep : String) : ∀ (xs extra : List String),
    (joinWith sep xs).data <+: (joinWith sep (xs ++ extra)).data
  | [], extra => by simp [joinWith]
  | [a], [] => by simp
  | [a], b :: rest => by
    simp only [List.singleton_append, joinWith, String.data_append, List.append_assoc]
    exact List.prefix_append _ _
  | a :: b :: rest, extra => by
    have ih := joinWith_begins_append sep (b :: rest) extra
    simp only [List.cons_append, joinWith, String.data_append, List.append_assoc] at ih ⊢
    exact (List.prefix_append_right_inj _).mpr ((List.prefix_append_right_inj _).mpr ih)

/-- The text of a directory begins the text of every path inside it. -/
theorem startsWith_render_of_within (inner outer : AbsPath) (h : inner.within outer = true) :
    startsWith inner.render outer.render = true := by
  simp only [AbsPath.within, Bool.and_eq_true, beq_iff_eq, List.isPrefixOf_iff_prefix] at h
  obtain ⟨⟨hroot, hsep⟩, extra, hseg⟩ := h
  simp only [startsWith, List.isPrefixOf_iff_prefix, AbsPath.render, String.data_append]
  rw [hroot, hsep, ← hseg]
  exact (List.prefix_append_right_inj _).mpr (joinWith_begins_append _ _ _)

/-- C10. The location guard rejects nested data directories: on the server,
for every configured `DB_DATA_PATH` whose resolved absolute path is the
resolved working directory or lies inside it, `verificarLocalizacaoBanco`
raises an error; the evaluation of the module then fails, so that no exported
function can be called, the variable `pool` stays unset, no pool is
constructed and no call is dispatched. -/
theorem C10_location_guard_rejects_nested {σ : Type} (env : Env) (store : σ)
    (configured : String) (data project : AbsPath)
    (hserver : env.windowDefined = false)
    (hconf : env.DB_DATA_PATH = some configured)
    (hdata : env.resolve configured = data.render)
    (hproj : env.resolve env.cwd = project.render)
    (hin : data.within project = true) :
    (∃ e, (verificarLocalizacaoBanco env).1 = .error e)
      ∧ (∃ e, (loadModule env store).1 = .error e)
      ∧ (loadModule env store).2.pool = none
      ∧ (loadModule env store).2.created = []
      ∧ (loadModule env store).2.dispatched = [] := by
  have hstart : startsWith (env.resolve configured) (env.resolve env.cwd) = true := by
    rw [hdata, hproj]
    exact startsWith_render_of_within data project hin
  have hguard : ∃ e, verificarLocalizacaoBanco env = (.error e, []) := by
    unfold verificarLocalizacaoBanco
    simp only [hserver, Bool.false_eq_true, if_false, hconf, isFalsy, Option.getD_some]
    by_cases hempty : configured = ""
    · simp [hempty]
    · simp [hempty, hstart]
  obtain ⟨e, he⟩ := hguard
  refine ⟨⟨e, by rw [he]⟩, ⟨e, ?_⟩, ?_, ?_, ?_⟩ <;>
    simp [loadModule, hserver, he, World.say]

/-- C10, instance: the data directory configured as a sub-directory of the
working directory. -/
theorem C10_location_guard_rejects_nested_witness :
    nestedEnv.windowDefined
        = false
      ∧ nestedEnv.DB_DATA_PATH
        = some "/srv/sis manu/data"
      ∧ nestedEnv.resolve
          "/srv/sis manu/data"
        = (AbsPath.mk "/" "/" ["srv", "sis manu", "data"]).render
      ∧ nestedEnv.resolve
          nestedEnv.cwd
        = (AbsPath.mk "/" "/" ["srv", "sis manu"]).render
      ∧ (AbsPath.mk "/" "/" ["srv", "sis manu", "data"]).within
          (AbsPath.mk "/" "/" ["srv", "sis manu"]) = true
      ∧ (∃ e, (loadModule nestedEnv
          ()).1 = .error e) :=
  ⟨rfl, rfl, by decide, by decide, by decide,
    (C10_location_guard_rejects_nested
      nestedEnv ()
      "/srv/sis manu/data" (AbsPath.mk "/" "/" ["srv", "sis manu", "data"])
      (AbsPath.mk "/" "/" ["srv", "sis manu"]) rfl rfl (by decide) (by decide) (by decide)).2.1⟩

/-! ## The location guard: locations outside the working directory -/

/-- On the server, for a non-empty configured path whose resolved text does
not begin with the resolved text of the working directory, the guard
completes; a location missing on disk adds one warning line. -/
theorem verificarLocalizacaoBanco_accepts (env : Env) (configured : String)
    (hserver : env.windowDefined = false)
    (hconf : env.DB_DATA_PATH = some configured) (hne : configured ≠ "")
    (hstart : startsWith (env.resolve configured) (env.resolve env.cwd) = false) :
    (verificarLocalizacaoBanco env).1 = .ok ()
      ∧ (verificarLocalizacaoBanco env).2.length
        = (if env.existsSync (env.resolve configured) then 1 else 2) := by
  unfold verificarLocalizacaoBanco
  simp only [hserver, Bool.false_eq_true, if_false, hconf, isFalsy, Option.getD_some]
  cases hex : env.existsSync (env.resolve configured) <;> simp [hne, hstart]

/-- C11, at the failing input. A server with working directory
`/srv/sis manu` and `DB_DATA_PATH` set to `/srv/sis manu-dados`: the
configured location is not the working directory and does not lie inside it,
yet its text begins with the text of the working directory, and
`verificarLocalizacaoBanco` raises the error of a database placed inside the
project folder; the evaluation of the module fails. -/
theorem C11_sibling_directory_rejected :
    siblingEnv.windowDefined = false
      ∧ siblingEnv.DB_DATA_PATH = some "/srv/sis manu-dados"
      ∧ siblingEnv.resolve "/srv/sis manu-dados"
        = (AbsPath.mk "/" "/" ["srv", "sis manu-dados"]).render
      ∧ siblingEnv.resolve siblingEnv.cwd = (AbsPath.mk "/" "/" ["srv", "sis manu"]).render
      ∧ (AbsPath.mk "/" "/" ["srv", "sis manu-dados"]).within
          (AbsPath.mk "/" "/" ["srv", "sis manu"]) = false
      ∧ startsWith (siblingEnv.resolve "/srv/sis manu-dados")
          (siblingEnv.resolve siblingEnv.cwd) = true
      ∧ (verificarLocalizacaoBanco siblingEnv).1
        = .error (mkError ("❌ PROIBIÇÃO ABSOLUTA VIOLADA: Banco de dados não pode estar dentro da pasta \x27sis manu\x27!\nCaminho detectado: "
            ++ "/srv/sis manu-dados"
            ++ "\nConfigure DB_DATA_PATH para apontar para \x27../banco de dados\x27"))
      ∧ (loadModule siblingEnv ()).1 ≠ .ok () := by
  refine ⟨rfl, rfl, by decide, by decide, by decide, by decide, ?_, ?_⟩
  · simp [verificarLocalizacaoBanco, siblingEnv, serverEnv, isFalsy, startsWith]
  · simp [loadModule, verificarLocalizacaoBanco, siblingEnv, serverEnv, isFalsy, startsWith]

/-! ## The location guard: missing configuration -/

/-- C12. Missing data-location configuration is fatal: on the server, when
`DB_DATA_PATH` is unset or is the empty string, `verificarLocalizacaoBanco`
raises the not-configured error and prints nothing; the outcome is the same
whatever `path.resolve` and `fs.existsSync` would answer (the check precedes
every path resolution); the evaluation of the module fails with the variable
`pool` unset, no pool constructed and no call dispatched. -/
theorem C12_missing_configuration_fatal {σ : Type} (env : Env) (store : σ)
    (hserver : env.windowDefined = false)
    (hmissing : env.DB_DATA_PATH = none ∨ env.DB_DATA_PATH = some "") :
    verificarLocalizacaoBanco env = (.error notConfiguredError, [])
      ∧ (∀ (r : String → String) (x : String → Bool),
        verificarLocalizacaoBanco { env with resolve := r, existsSync := x }
          = (.error notConfiguredError, []))
      ∧ (loadModule env store).1 = .error notConfiguredError
      ∧ (loadModule env store).2.pool = none
      ∧ (loadModule env store).2.created = []
      ∧ (loadModule env store).2.dispatched = [] := by
  have hfalsy : isFalsy env.DB_DATA_PATH = true := by
    rcases hmissing with h | h <;> simp [h, isFalsy]
  have hguard : verificarLocalizacaoBanco env = (.error notConfiguredError, []) := by
    simp only [verificarLocalizacaoBanco, hserver, Bool.false_eq_true, if_false, hfalsy,
      if_true, notConfiguredError]
  refine ⟨hguard, ?_, ?_, ?_, ?_, ?_⟩
  · intro r x
    simp only [verificarLocalizacaoBanco, hserver, Bool.false_eq_true, if_false, hfalsy,
      if_true, notConfiguredError]
  all_goals simp [loadModule, hserver, hguard, World.say]

/-- C12, instance: a server with `DB_DATA_PATH` set to the empty string. -/
theorem C12_missing_configuration_fatal_witness :
    emptyPathEnv.windowDefined = false
      ∧ (emptyPathEnv.DB_DATA_PATH = none ∨ emptyPathEnv.DB_DATA_PATH = some "")
      ∧ verificarLocalizacaoBanco emptyPathEnv = (.error notConfiguredError, [])
      ∧ (loadModule emptyPathEnv ()).1 = .error notConfiguredError :=
  ⟨rfl, Or.inr rfl,
    (C12_missing_configuration_fatal emptyPathEnv () rfl (Or.inr rfl)).1,
    (C12_missing_configuration_fatal emptyPathEnv () rfl (Or.inr rfl)).2.2.1⟩

/-! ## The lazily created pool -/

example : (callAll (serverEnv 2025) acceptingPool
    [.query "SELECT 1" .undefined, .createPool, .getNextNumber "equipment", .createPool]
    (freshWorld ())).1 = [.ok 0, .ok 0] := by decide

theorem createPool_demand {σ : Type} (env : Env) (w : World σ)
    (h : env.windowDefined = false) :
    (createPool env w).1 = .ok ((demandPool env w).1.getD 0)
      ∧ ((createPool env w).2.pool, (createPool env w).2.created) = demandPool env w := by
  unfold createPool demandPool
  simp only [h, Bool.false_eq_true, if_false]
  cases hp : w.pool <;> simp [hp]

theorem query_demand {σ : Type} (env : Env) (pb : PoolBehaviour σ) (sql : String)
    (ps : JSValue) (w : World σ) (h : env.windowDefined = false) :
    ((query env pb sql ps w).2.pool, (query env pb sql ps w).2.created) = demandPool env w := by
  unfold query createPool demandPool
  simp only [h, Bool.false_eq_true, if_false]
  cases hp : w.pool <;> simp only [World.say, World.afterCall] <;> split <;> simp_all

theorem queryDirect_demand {σ : Type} (env : Env) (pb : PoolBehaviour σ) (sql : String)
    (ps : JSValue) (w : World σ) (h : env.windowDefined = false) :
    ((queryDirect env pb sql ps w).2.pool, (queryDirect env pb sql ps w).2.created)
      = demandPool env w := by
  unfold queryDirect createPool demandPool
  simp only [h, Bool.false_eq_true, if_false]
  cases hp : w.pool <;> simp only [World.say, World.afterCall] <;> split <;> simp_all

theorem execute_demand {σ : Type} (env : Env) (pb : PoolBehaviour σ) (sql : String)
    (ps : JSValue) (w : World σ) (h : env.windowDefined = false) :
    ((execute env pb sql ps w).2.pool, (execute env pb sql ps w).2.created)
      = demandPool env w := by
  unfold execute createPool demandPool
  simp only [h, Bool.false_eq_true, if_false]
  cases hp : w.pool <;> simp only [World.say, World.afterCall, hp] <;> split <;> simp_all

theorem getConnection_demand {σ : Type} (env : Env) (pb : PoolBehaviour σ) (w : World σ)
    (h : env.windowDefined = false) :
    ((getConnection env pb w).2.pool, (getConnection env pb w).2.created)
      = demandPool env w := by
  unfold getConnection createPool demandPool
  simp only [h, Bool.false_eq_true, if_false]
  cases hp : w.pool <;> simp only [World.afterCall, hp]

/-- Asking for the pool a second time changes nothing. -/
theorem demandPool_again {σ : Type} (env : Env) (w w1 : World σ)
    (h : (w1.pool, w1.created) = demandPool env w) : demandPool env w1 = demandPool env w := by
  unfold demandPool at h ⊢
  cases hp : w.pool <;> simp only [hp, Prod.mk.injEq] at h ⊢ <;> simp [h.1, h.2]

theorem getNextNumber_demand {σ : Type} (env : Env) (pb : PoolBehaviour σ)
    (entityType : String) (w : World σ) (h : env.windowDefined = false) :
    ((getNextNumber env pb entityType w).2.pool, (getNextNumber env pb entityType w).2.created)
      = demandPool env w := by
  unfold getNextNumber
  simp only [h, Bool.false_eq_true, if_false]
  have d1 := query_demand env pb insertSql (counterParams entityType env.currentYear) w h
  rcases hq1 : query env pb insertSql (counterParams entityType env.currentYear) w with ⟨r1, w1⟩
  rw [hq1] at d1
  simp only at d1
  cases r1 with
  | error e => exact d1
  | ok v1 =>
    simp only
    have d2 := query_demand env pb updateSql (counterParams entityType env.currentYear) w1 h
    rw [demandPool_again env w w1 d1] at d2
    rcases hq2 : query env pb updateSql (counterParams entityType env.currentYear) w1
      with ⟨r2, w2⟩
    rw [hq2] at d2
    simp only at d2
    cases r2 with
    | error e => exact d2
    | ok v2 =>
      simp only
      have d3 := query_demand env pb selectSql (counterParams entityType env.currentYear) w2 h
      rw [demandPool_again env w w2 d2] at d3
      rcases hq3 : query env pb selectSql (counterParams entityType env.currentYear) w2
        with ⟨r3, w3⟩
      rw [hq3] at d3
      simp only at d3
      cases r3 with
      | error e => exact d3
      | ok v3 => exact d3

/-- On the server every exported function leaves the variable `pool` and the
constructed pools as a demand for the pool leaves them, and `createPool`
returns the pool held by the variable. -/
theorem callModule_demand {σ : Type} (env : Env) (pb : PoolBehaviour σ) (c : ModuleCall)
    (w : World σ) (h : env.windowDefined = false) :
    ((callModule env pb c w).2.pool, (callModule env pb c w).2.created) = demandPool env w
      ∧ ∀ r, (callModule env pb c w).1 = some r → r = .ok ((demandPool env w).1.getD 0) := by
  cases c with
  | createPool =>
    refine ⟨(createPool_demand env w h).2, ?_⟩
    intro r hr
    simp only [callModule, Option.some.injEq] at hr
    rw [← hr]
    exact (createPool_demand env w h).1
  | query sql params => exact ⟨query_demand env pb sql params w h, by simp [callModule]⟩
  | queryDirect sql params =>
    exact ⟨queryDirect_demand env pb sql params w h, by simp [callModule]⟩
  | execute sql params => exact ⟨execute_demand env pb sql params w h, by simp [callModule]⟩
  | getNextNumber entityType =>
    exact ⟨getNextNumber_demand env pb entityType w h, by simp [callModule]⟩
  | getConnection => exact ⟨getConnection_demand env pb w h, by simp [callModule]⟩

theorem callAll_demand {σ : Type} (env : Env) (pb : PoolBehaviour σ)
    (h : env.windowDefined = false) (calls : List ModuleCall) :
    ∀ w : World σ, demandPool env w = (some 0, [dbConfig env]) →
      (∀ r ∈ (callAll env pb calls w).1, r = Except.ok 0)
        ∧ (calls ≠ [] → (callAll env pb calls w).2.pool = some 0
          ∧ (callAll env pb calls w).2.created = [dbConfig env]) := by
  induction calls with
  | nil => intro w _; simp [callAll]
  | cons c rest ih =>
    intro w hw
    obtain ⟨hd, hr⟩ := callModule_demand env pb c w h
    rw [hw] at hd hr
    simp only [Prod.mk.injEq] at hd
    have hnext : demandPool env (callModule env pb c w).2 = (some 0, [dbConfig env]) := by
      simp only [demandPool, hd.1, hd.2]
    obtain ⟨ih1, ih2⟩ := ih _ hnext
    have hfinal : (callAll env pb rest (callModule env pb c w).2).2.pool = some 0
        ∧ (callAll env pb rest (callModule env pb c w).2).2.created = [dbConfig env] := by
      cases rest with
      | nil => simpa [callAll] using hd
      | cons c1 rest1 => exact ih2 (by simp)
    simp only [callAll]
    cases hres : (callModule env pb c w).1 with
    | none => exact ⟨ih1, fun _ => hfinal⟩
    | some r =>
      refine ⟨?_, fun _ => hfinal⟩
      intro r1 hr1
      simp only [List.mem_cons] at hr1
      rcases hr1 with heq | hmem
      · rw [heq]; simpa using hr r hres
      · exact ih1 r1 hmem

/-- C13. Lazy singleton pool: on the server, starting from a world in which
the variable `pool` is unset and no pool has been constructed (the world a
module evaluation leaves), over every sequence of calls to `createPool`,
`query`, `queryDirect`, `execute`, `getNextNumber` and `getConnection`:
`mysql.createPool` is invoked at most once; it is not invoked before the first
call and has been invoked, with `dbConfig`, once the first call is over; every
call of `createPool` in the sequence returns the same pool; and from any world
in which the variable holds a pool, no call replaces or clears it or
constructs another pool. -/
theorem C13_lazy_singleton_pool {σ : Type} (env : Env) (pb : PoolBehaviour σ)
    (calls : List ModuleCall) (w0 : World σ) (store : σ)
    (hserver : env.windowDefined = false)
    (hunset : w0.pool = none) (hnone : w0.created = []) :
    (callAll env pb calls w0).2.created.length ≤ 1
      ∧ (calls = [] → (callAll env pb calls w0).2.pool = none
        ∧ (callAll env pb calls w0).2.created = [])
      ∧ (calls ≠ [] → (callAll env pb calls w0).2.pool = some 0
        ∧ (callAll env pb calls w0).2.created = [dbConfig env])
      ∧ (∀ r ∈ (callAll env pb calls w0).1, r = Except.ok 0)
      ∧ (∀ (w : World σ) (p : Nat) (c : ModuleCall), w.pool = some p →
        (callModule env pb c w).2.pool = some p
          ∧ (callModule env pb c w).2.created = w.created)
      ∧ ((loadModule env store).2.pool = none ∧ (loadModule env store).2.created = []) := by
  have hstart : demandPool env w0 = (some 0, [dbConfig env]) := by
    simp [demandPool, hunset, hnone]
  obtain ⟨hres, hset⟩ := callAll_demand env pb hserver calls w0 hstart
  have hempty : calls = [] → (callAll env pb calls w0).2.pool = none
      ∧ (callAll env pb calls w0).2.created = [] := by
    intro hc
    subst hc
    exact ⟨hunset, hnone⟩
  refine ⟨?_, hempty, hset, hres, ?_, ?_⟩
  · cases calls with
    | nil => simp [(hempty rfl).2]
    | cons c rest => simp [(hset (by simp)).2]
  · intro w p c hp
    have hd := (callModule_demand env pb c w hserver).1
    simp only [demandPool, hp, Prod.mk.injEq] at hd
    exact hd
  · unfold loadModule
    simp only [hserver, Bool.not_false, if_true]
    rcases verificarLocalizacaoBanco env with ⟨r, out⟩
    cases r <;> simp [World.say]

/-- C13, instance: a query, a `createPool`, a number request and another
`createPool` on a fresh server: one pool is constructed and both `createPool`
calls return it. -/
theorem C13_lazy_singleton_pool_witness :
    (serverEnv 2025).windowDefined = false
      ∧ (freshWorld ()).pool = none
      ∧ (freshWorld ()).created = []
      ∧ (callAll (serverEnv 2025) acceptingPool
          [.query "SELECT 1" .undefined, .createPool, .getNextNumber "equipment", .createPool]
          (freshWorld ())).2.created.length ≤ 1
      ∧ (callAll (serverEnv 2025) acceptingPool
          [.query "SELECT 1" .undefined, .createPool, .getNextNumber "equipment", .createPool]
          (freshWorld ())).1 = [.ok 0, .ok 0] :=
  ⟨rfl, rfl, rfl,
    (C13_lazy_singleton_pool (serverEnv 2025) acceptingPool
      [.query "SELECT 1" .undefined, .createPool, .getNextNumber "equipment", .createPool]
      (freshWorld ()) () rfl rfl rfl).1,
    by decide⟩

/-! ## `queryDirect` and `query` -/

/-- C14. `queryDirect` is equivalent to `query`: for every process, every pool
behaviour, every SQL text, every `params` value (array or not) and every
world, both return the same outcome (the same rows, the same raised error),
leave the same store, the same dispatched calls, the same variable `pool` and
the same constructed pools; on the server both dispatch exactly one call, the
same `pool.query` call with the same arguments; and their console lines agree
in level and printed value, the label text aside. -/
theorem C14_queryDirect_equivalent_to_query {σ : Type} (env : Env) (pb : PoolBehaviour σ)
    (sql : String) (params : JSValue) (w : World σ) :
    (queryDirect env pb sql params w).1 = (query env pb sql params w).1
      ∧ (queryDirect env pb sql params w).2.store = (query env pb sql params w).2.store
      ∧ (queryDirect env pb sql params w).2.dispatched
        = (query env pb sql params w).2.dispatched
      ∧ (queryDirect env pb sql params w).2.pool = (query env pb sql params w).2.pool
      ∧ (queryDirect env pb sql params w).2.created = (query env pb sql params w).2.created
      ∧ (queryDirect env pb sql params w).2.log.map (fun l => (l.level, l.arg))
        = (query env pb sql params w).2.log.map (fun l => (l.level, l.arg))
      ∧ (env.windowDefined = false →
        (queryDirect env pb sql params w).2.dispatched = w.dispatched ++ [queryCall sql params]
          ∧ (query env pb sql params w).2.dispatched
            = w.dispatched ++ [queryCall sql params]) := by
  cases hw : env.windowDefined with
  | true => simp [queryDirect, query, hw]
  | false =>
    refine ⟨?_, ?_, ?_, ?_, ?_, ?_, fun _ => ⟨queryDirect_dispatched env pb sql params w hw,
      query_dispatched env pb sql params w hw⟩⟩
    · rw [queryDirect_fst _ _ _ _ _ hw, query_fst _ _ _ _ _ hw]
    · rw [queryDirect_store _ _ _ _ _ hw, query_store _ _ _ _ _ hw]
    · rw [queryDirect_dispatched _ _ _ _ _ hw, query_dispatched _ _ _ _ _ hw]
    · have h1 := queryDirect_demand env pb sql params w hw
      have h2 := query_demand env pb sql params w hw
      rw [← h2] at h1
      exact (Prod.mk.injEq _ _ _ _ ▸ h1).1
    · have h1 := queryDirect_demand env pb sql params w hw
      have h2 := query_demand env pb sql params w hw
      rw [← h2] at h1
      exact (Prod.mk.injEq _ _ _ _ ▸ h1).2
    · unfold queryDirect query createPool
      simp only [hw, Bool.false_eq_true, if_false]
      cases hp : w.pool <;> simp only [World.say, World.afterCall] <;> split <;> simp_all

/-- C14, instance: a statement with a non-array `params` on the counters
store, which refuses it; both entry points dispatch `pool.query(sql)` and
raise the same error. -/
theorem C14_queryDirect_equivalent_to_query_witness :
    (serverEnv 2025).windowDefined = false
      ∧ (queryDirect (serverEnv 2025) countersPool "SELECT 1" (.str "x")
          (freshWorld Counters.empty)).1
        = (query (serverEnv 2025) countersPool "SELECT 1" (.str "x")
          (freshWorld Counters.empty)).1
      ∧ (queryDirect (serverEnv 2025) countersPool "SELECT 1" (.str "x")
          (freshWorld Counters.empty)).2.dispatched
        = (freshWorld Counters.empty).dispatched ++ [queryCall "SELECT 1" (.str "x")]
      ∧ queryCall "SELECT 1" (.str "x") = .query "SELECT 1" none :=
  ⟨rfl,
    (C14_queryDirect_equivalent_to_query (serverEnv 2025) countersPool "SELECT 1" (.str "x")
      (freshWorld Counters.empty)).1,
    ((C14_queryDirect_equivalent_to_query (serverEnv 2025) countersPool "SELECT 1" (.str "x")
      (freshWorld Counters.empty)).2.2.2.2.2.2 rfl).1,
    by decide⟩

/-! ## Distinct counters give distinct numbers -/

theorem padStart_zero_injective (width a b : Nat)
    (h : padStart (toString a) width "0" = padStart (toString b) width "0") : a = b := by
  have ta : toString a = Nat.repr a := rfl
  have tb : toString b = Nat.repr b := rfl
  rw [ta, tb, padStart_zero_repr, padStart_zero_repr] at h
  exact zeroPad_repr_injective width a b h

/-- C15, refuted as stated. Service orders of 2025 read back as
`2 ^ 53 = 9007199254740992` and as `2 ^ 53 + 1 = 9007199254740993`, two
distinct non-negative integers: both are the same Number, `toString()` gives
`9007199254740992` for both, and the two calls return the same string
`OS-9007199254740992-2025`. -/
theorem C15_unsafe_counters_collide_counterexample :
    (9007199254740992 : Nat) ≠ 9007199254740993
      ∧ (runCalls countersPool
          (freshWorld (Counters.empty.set ("service_orders", 2025) 9007199254740991)).store
          (nextNumberStatements "service_orders" (serverEnv 2025).currentYear)).1
        = [.ok (.header 0), .ok (.header 1),
            .ok (.rows [[("counter", .num 9007199254740992)]])]
      ∧ (runCalls countersPool
          (freshWorld (Counters.empty.set ("service_orders", 2025) 9007199254740992)).store
          (nextNumberStatements "service_orders" (serverEnv 2025).currentYear)).1
        = [.ok (.header 0), .ok (.header 1),
            .ok (.rows [[("counter", .num 9007199254740993)]])]
      ∧ (getNextNumber (serverEnv 2025) countersPool "service_orders"
          (freshWorld (Counters.empty.set ("service_orders", 2025) 9007199254740991))).1
        = .ok "OS-9007199254740992-2025"
      ∧ (getNextNumber (serverEnv 2025) countersPool "service_orders"
          (freshWorld (Counters.empty.set ("service_orders", 2025) 9007199254740992))).1
        = .ok "OS-9007199254740992-2025"
      ∧ padStart (numberText 9007199254740992) 3 "0" = padStart (numberText 9007199254740993) 3 "0"
      ∧ ¬ (getNextNumber (serverEnv 2025) countersPool "service_orders"
          (freshWorld (Counters.empty.set ("service_orders", 2025) 9007199254740991))).1
        ≠ (getNextNumber (serverEnv 2025) countersPool "service_orders"
          (freshWorld (Counters.empty.set ("service_orders", 2025) 9007199254740992))).1 := by
  set_option maxRecDepth 100000 in decide

/-- C15, amended. The number format is injective in the counter up to
`Number.MAX_SAFE_INTEGER` (`2 ^ 53 - 1`): on the server, for every entity type
and all non-negative integers `c1 ≠ c2` not above that bound, two calls of
`getNextNumber` whose read-backs return `c1` and `c2` return different
strings; the format of `c1` differs from the format of `c2` for every year;
and `padStart` with `0` gives different texts to `c1` and `c2` at every
width. -/
theorem C15_format_injective_in_counter {σ : Type} (env : Env) (pb1 pb2 : PoolBehaviour σ)
    (w1 w2 : World σ) (entityType : String) (c1 c2 : Nat) (a1 a2 b1 b2 : PoolResponse)
    (row1 row2 : Row) (rest1 rest2 : List Row)
    (hserver : env.windowDefined = false)
    (hne : c1 ≠ c2)
    (hrun1 : (runCalls pb1 w1.store (nextNumberStatements entityType env.currentYear)).1
      = [.ok a1, .ok a2, .ok (.rows (row1 :: rest1))])
    (hrow1 : row1.lookup "counter" = some (.num (c1 : Int)))
    (hrun2 : (runCalls pb2 w2.store (nextNumberStatements entityType env.currentYear)).1
      = [.ok b1, .ok b2, .ok (.rows (row2 :: rest2))])
    (hrow2 : row2.lookup "counter" = some (.num (c2 : Int)))
    (hsafe1 : c1 ≤ maxSafeInteger) (hsafe2 : c2 ≤ maxSafeInteger) :
    (getNextNumber env pb1 entityType w1).1 ≠ (getNextNumber env pb2 entityType w2).1
      ∧ (∃ t1 t2, (getNextNumber env pb1 entityType w1).1 = .ok t1
        ∧ (getNextNumber env pb2 entityType w2).1 = .ok t2 ∧ t1 ≠ t2)
      ∧ (∀ year, formatSwitch entityType (numberText c1) year
        ≠ formatSwitch entityType (numberText c2) year)
      ∧ (∀ width, padStart (numberText c1) width "0" ≠ padStart (numberText c2) width "0") := by
  have h1 := getNextNumber_read_back env pb1 w1 entityType c1 a1 a2 row1 rest1 hserver hrun1 hrow1
  have h2 := getNextNumber_read_back env pb2 w2 entityType c2 b1 b2 row2 rest2 hserver hrun2 hrow2
  have t1 : numberText c1 = toString c1 := numberText_safe c1 hsafe1
  have t2 : numberText c2 = toString c2 := numberText_safe c2 hsafe2
  have hfmt : ∀ year, formatSwitch entityType (numberText c1) year
      ≠ formatSwitch entityType (numberText c2) year := by
    intro year h
    rw [t1, t2] at h
    exact hne (formatSwitch_injective entityType year c1 c2 h)
  refine ⟨?_, ⟨_, _, h1, h2, hfmt _⟩, hfmt, ?_⟩
  · rw [h1, h2]
    intro h
    exact hfmt _ (Except.ok.inj h)
  · intro width h
    rw [t1, t2] at h
    exact hne (padStart_zero_injective width c1 c2 h)

/-- C15 amended, instance: service orders of 2025 read back as 1 and as 10; the
calls return `OS-001-2025` and `OS-010-2025`. -/
theorem C15_format_injective_in_counter_witness :
    (serverEnv 2025).windowDefined = false
      ∧ (1 : Nat) ≠ 10
      ∧ (runCalls countersPool (freshWorld Counters.empty).store
          (nextNumberStatements "service_orders" (serverEnv 2025).currentYear)).1
        = [.ok (.header 1), .ok (.header 1), .ok (.rows ([("counter", .num 1)] :: []))]
      ∧ (runCalls countersPool (freshWorld (Counters.empty.set ("service_orders", 2025) 9)).store
          (nextNumberStatements "service_orders" (serverEnv 2025).currentYear)).1
        = [.ok (.header 0), .ok (.header 1), .ok (.rows ([("counter", .num 10)] :: []))]
      ∧ 1 ≤ maxSafeInteger
      ∧ 10 ≤ maxSafeInteger
      ∧ (getNextNumber (serverEnv 2025) countersPool "service_orders"
          (freshWorld Counters.empty)).1
        ≠ (getNextNumber (serverEnv 2025) countersPool "service_orders"
          (freshWorld (Counters.empty.set ("service_orders", 2025) 9))).1
      ∧ (getNextNumber (serverEnv 2025) countersPool "service_orders"
          (freshWorld Counters.empty)).1 = .ok "OS-001-2025"
      ∧ (getNextNumber (serverEnv 2025) countersPool "service_orders"
          (freshWorld (Counters.empty.set ("service_orders", 2025) 9))).1 = .ok "OS-010-2025" :=
  ⟨rfl, by decide, by decide, by decide, by decide, by decide,
    (C15_format_injective_in_counter (serverEnv 2025) countersPool countersPool
      (freshWorld Counters.empty) (freshWorld (Counters.empty.set ("service_orders", 2025) 9))
      "service_orders" 1 10 (.header 1) (.header 1) (.header 0) (.header 1)
      [("counter", .num 1)] [("counter", .num 10)] [] [] rfl (by decide) (by decide) (by decide)
      (by decide) (by decide) (by decide) (by decide)).1,
    by decide, by decide⟩

end Manu
